import Mathlib

/-!
Verification of the migration/rollback generation subsystem of
silver-fin-monitor (`supabase/migrations_refactored/generate_migrations.py`
and `generate_rollbacks.py`).

The Python code is shallowly embedded over `List Char` (Python `str`).
Regular-expression searches are modelled by dedicated search functions that
reproduce the leftmost-match / greedy-backtracking behaviour of `re.search`
for the specific patterns used by the source.
-/

namespace SFM

/-! ## Basic string machinery -/

/-- Python `\w` on the ASCII inputs used here: alphanumeric or underscore. -/
def isWordChar (c : Char) : Bool := c.isAlphanum || c = '_'

/-- Character class `[^";\s]` of the extension-name regex. -/
def extClassChar (c : Char) : Bool :=
  !(c = '"' || c = ';' || c = ' ' || c = '\t' || c = '\n' || c = '\r' ||
    c = '\x0b' || c = '\x0c')

/-- Strip a literal from the front of a string, or fail. -/
def stripHead : List Char → List Char → Option (List Char)
  | [], s => some s
  | _ :: _, [] => none
  | a :: as, b :: bs => if a = b then stripHead as bs else none

/-- `re.search`: try the position matcher `m` at each position, leftmost first. -/
def searchAux (m : List Char → Option α) : List Char → Option α
  | [] => m []
  | c :: cs =>
    match m (c :: cs) with
    | some r => some r
    | none => searchAux m cs

/-- Python `needle in haystack`. -/
def containsL (needle hay : List Char) : Bool :=
  (searchAux (fun s => stripHead needle s) hay).isSome

/-! ## The seven extraction patterns of `extract_object_info` -/

/-- Matcher for `CREATE EXTENSION IF NOT EXISTS "?([^";\s]+)"?` at one position. -/
def extMatchAt (s : List Char) : Option (List Char) :=
  (stripHead "CREATE EXTENSION IF NOT EXISTS ".data s).bind fun rest =>
    match rest with
    | '"' :: r2 =>
      let run := r2.takeWhile extClassChar
      if run.isEmpty then none else some run
    | _ =>
      let run := rest.takeWhile extClassChar
      if run.isEmpty then none else some run

/-- Matcher for a literal followed by `(\w+)` at one position
(used by the table, index and seed patterns). -/
def litWordMatchAt (lit : List Char) (s : List Char) : Option (List Char) :=
  (stripHead lit s).bind fun rest =>
    let run := rest.takeWhile isWordChar
    if run.isEmpty then none else some run

/-- Matcher for `CREATE (?:OR REPLACE )?FUNCTION (\w+)` at one position,
with the greedy optional group backtracking of the `re` engine. -/
def funcMatchAt (s : List Char) : Option (List Char) :=
  (stripHead "CREATE ".data s).bind fun rest =>
    let word : List Char → Option (List Char) := fun r =>
      let run := r.takeWhile isWordChar
      if run.isEmpty then none else some run
    let direct : Option (List Char) :=
      (stripHead "FUNCTION ".data rest).bind word
    match stripHead "OR REPLACE ".data rest with
    | some rest2 =>
      match (stripHead "FUNCTION ".data rest2).bind word with
      | some g => some g
      | none => direct
    | none => direct

/-- Matcher for `ON (\w+)` at one position (the tail of the trigger pattern). -/
def onMatchAt (s : List Char) : Option (List Char) :=
  (stripHead "ON ".data s).bind fun r =>
    let run := r.takeWhile isWordChar
    if run.isEmpty then none else some run

/-- Rightmost `ON (\w+)` match: the greedy `.*` of the trigger pattern prefers
the latest possible position, so later positions are tried first. -/
def onRightmost : List Char → Option (List Char)
  | [] => none
  | c :: cs =>
    match onRightmost cs with
    | some g => some g
    | none => onMatchAt (c :: cs)

/-- Backtracking of the greedy `(\w+)` group of the trigger pattern:
the trigger-name group is shrunk from the maximal word run downwards until
`.*ON (\w+)` matches in the remainder. -/
def trigBacktrack (run rest : List Char) : Nat → Option (List Char × List Char)
  | 0 => none
  | Nat.succ k =>
    match onRightmost (rest.drop (k + 1)) with
    | some g => some (run.take (k + 1), g)
    | none => trigBacktrack run rest k

/-- Matcher for `CREATE TRIGGER (\w+).*ON (\w+)` (DOTALL) at one position. -/
def trigMatchAt (s : List Char) : Option (List Char × List Char) :=
  (stripHead "CREATE TRIGGER ".data s).bind fun rest =>
    let run := rest.takeWhile isWordChar
    trigBacktrack run rest run.length

/-- Matcher for `CREATE (?:MATERIALIZED )?VIEW (?:IF NOT EXISTS )?(\w+)`
at one position, with greedy optional-group backtracking. -/
def viewMatchAt (s : List Char) : Option (List Char) :=
  (stripHead "CREATE ".data s).bind fun rest =>
    let word : List Char → Option (List Char) := fun r =>
      let run := r.takeWhile isWordChar
      if run.isEmpty then none else some run
    let afterView : List Char → Option (List Char) := fun r =>
      (stripHead "VIEW ".data r).bind fun r2 =>
        match stripHead "IF NOT EXISTS ".data r2 with
        | some r3 =>
          match word r3 with
          | some g => some g
          | none => word r2
        | none => word r2
    match stripHead "MATERIALIZED ".data rest with
    | some rest2 =>
      match afterView rest2 with
      | some g => some g
      | none => afterView rest
    | none => afterView rest

/-! ## `extract_object_info` -/

/-- The structured result of `extract_object_info`:
`(obj_type, obj_name, dependent)`. -/
structure Extracted where
  kind : String
  name : List Char
  dependent : Option (List Char)
deriving DecidableEq

/-- Branch 1 of `extract_object_info`: extensions. -/
def tryExtension (sql : List Char) : Option Extracted :=
  if containsL "CREATE EXTENSION".data sql then
    (searchAux extMatchAt sql).map fun n => ⟨"EXTENSION", n, none⟩
  else none

/-- Branch 2: tables. -/
def tryTable (sql : List Char) : Option Extracted :=
  if containsL "CREATE TABLE".data sql then
    (searchAux (litWordMatchAt "CREATE TABLE IF NOT EXISTS ".data) sql).map
      fun n => ⟨"TABLE", n, none⟩
  else none

/-- Branch 3: indexes. -/
def tryIndex (sql : List Char) : Option Extracted :=
  if containsL "CREATE INDEX".data sql then
    (searchAux (litWordMatchAt "CREATE INDEX IF NOT EXISTS ".data) sql).map
      fun n => ⟨"INDEX", n, none⟩
  else none

/-- Branch 4: functions. -/
def tryFunction (sql : List Char) : Option Extracted :=
  if containsL "CREATE OR REPLACE FUNCTION".data sql ||
     containsL "CREATE FUNCTION".data sql then
    (searchAux funcMatchAt sql).map fun n => ⟨"FUNCTION", n, none⟩
  else none

/-- Branch 5: triggers (the only branch that fills `dependent`). -/
def tryTrigger (sql : List Char) : Option Extracted :=
  if containsL "CREATE TRIGGER".data sql then
    (searchAux trigMatchAt sql).map fun p => ⟨"TRIGGER", p.1, some p.2⟩
  else none

/-- Branch 6: views and materialized views. -/
def tryView (sql : List Char) : Option Extracted :=
  if containsL "CREATE VIEW".data sql ||
     containsL "CREATE MATERIALIZED VIEW".data sql then
    (searchAux viewMatchAt sql).map fun n =>
      ⟨if containsL "MATERIALIZED".data sql then "MATERIALIZED VIEW" else "VIEW",
       n, none⟩
  else none

/-- Branch 7: seed data (`INSERT INTO`). -/
def trySeed (sql : List Char) : Option Extracted :=
  if containsL "INSERT INTO".data sql then
    (searchAux (litWordMatchAt "INSERT INTO ".data) sql).map
      fun n => ⟨"SEED", n, none⟩
  else none

/-- `extract_object_info` from `generate_rollbacks.py`: the seven pattern
branches tried in source order, falling through to `(UNKNOWN, unknown)`. -/
def extract_object_info (sql : List Char) : Extracted :=
  match tryExtension sql with
  | some e => e
  | none =>
    match tryTable sql with
    | some e => e
    | none =>
      match tryIndex sql with
      | some e => e
      | none =>
        match tryFunction sql with
        | some e => e
        | none =>
          match tryTrigger sql with
          | some e => e
          | none =>
            match tryView sql with
            | some e => e
            | none =>
              match trySeed sql with
              | some e => e
              | none => ⟨"UNKNOWN", "unknown".data, none⟩

/-! ## `generate_rollback` -/

/-- Python truthiness of the optional `dependent` argument. -/
def depTruthy : Option (List Char) → Bool
  | none => false
  | some d => !d.isEmpty

/-- `generate_rollback` from `generate_rollbacks.py`. A `TRIGGER` without a
truthy dependent falls into the `elif obj_type in rollback_templates` branch,
where `.format` with one argument against the two-placeholder trigger template
raises `IndexError`; this is modelled by `Except.error ()`. -/
def generate_rollback (ty : String) (name : List Char) (dep : Option (List Char)) :
    Except Unit (List Char) :=
  if ty = "TRIGGER" && depTruthy dep then
    .ok ("DROP TRIGGER IF EXISTS ".data ++ name ++ " ON ".data ++
         (dep.getD []) ++ ";".data)
  else if ty = "EXTENSION" then
    .ok ("DROP EXTENSION IF EXISTS \"".data ++ name ++ "\" CASCADE;".data)
  else if ty = "TABLE" then
    .ok ("DROP TABLE IF EXISTS ".data ++ name ++ " CASCADE;".data)
  else if ty = "INDEX" then
    .ok ("DROP INDEX IF EXISTS ".data ++ name ++ ";".data)
  else if ty = "FUNCTION" then
    .ok ("DROP FUNCTION IF EXISTS ".data ++ name ++ " CASCADE;".data)
  else if ty = "TRIGGER" then
    .error ()
  else if ty = "VIEW" then
    .ok ("DROP VIEW IF EXISTS ".data ++ name ++ " CASCADE;".data)
  else if ty = "MATERIALIZED VIEW" then
    .ok ("DROP MATERIALIZED VIEW IF EXISTS ".data ++ name ++ " CASCADE;".data)
  else if ty = "SEED" then
    .ok ("-- Manual rollback required for seed data in table ".data ++ name)
  else
    .ok ("-- TODO: Manual rollback required for ".data ++ ty.data ++
         " ".data ++ name)

/-! ## Migration definitions and `generate_migration` -/

/-- One entry of the `MIGRATIONS` list of `generate_migrations.py`:
`number`, `name`, `type` and the `content` dict (modelled as an
association list). -/
structure Migration where
  number : String
  name : String
  type : String
  content : List (String × String)
deriving DecidableEq

/-- Dictionary lookup in a `content` mapping. -/
def getKey (c : List (String × String)) (k : String) : Option String :=
  (c.find? (fun p => p.1 = k)).map (fun p => p.2)

/-- `str.format(**content)` key fetch: a missing key raises `KeyError`,
modelled as `Except.error key`. -/
def reqKey (c : List (String × String)) (k : String) : Except String String :=
  match getKey c k with
  | some v => .ok v
  | none => .error k

/-- `EXTENSION_TEMPLATE.format(**content)`. -/
def renderExtension (c : List (String × String)) : Except String (List Char) := do
  let d ← reqKey c "description"
  let dt ← reqKey c "details"
  let e ← reqKey c "extension"
  return "-- ".data ++ d.data ++ "\n-- ".data ++ dt.data ++
    "\nCREATE EXTENSION IF NOT EXISTS \"".data ++ e.data ++ "\";".data

/-- `TABLE_TEMPLATE.format(**content)`. -/
def renderTable (c : List (String × String)) : Except String (List Char) := do
  let d ← reqKey c "description"
  let t ← reqKey c "table_name"
  let cols ← reqKey c "columns"
  let cm ← reqKey c "comment"
  return "-- ".data ++ d.data ++ "\nCREATE TABLE IF NOT EXISTS ".data ++
    t.data ++ " (\n".data ++ cols.data ++
    "\n);\n\n-- Add table comment\nCOMMENT ON TABLE ".data ++ t.data ++
    " IS '".data ++ cm.data ++ "';".data

/-- `INDEX_TEMPLATE.format(**content)`. -/
def renderIndex (c : List (String × String)) : Except String (List Char) := do
  let d ← reqKey c "description"
  let i ← reqKey c "index_name"
  let t ← reqKey c "table_name"
  let idef ← reqKey c "index_def"
  return "-- ".data ++ d.data ++ "\nCREATE INDEX IF NOT EXISTS ".data ++
    i.data ++ " ON ".data ++ t.data ++ idef.data ++ ";".data

/-- `FUNCTION_TEMPLATE.format(**content)`. -/
def renderFunction (c : List (String × String)) : Except String (List Char) := do
  let d ← reqKey c "description"
  let f ← reqKey c "function_name"
  let b ← reqKey c "function_body"
  return "-- ".data ++ d.data ++ "\nCREATE OR REPLACE FUNCTION ".data ++
    f.data ++ "\n".data ++ b.data

/-- `TRIGGER_TEMPLATE.format(**content)`. -/
def renderTrigger (c : List (String × String)) : Except String (List Char) := do
  let d ← reqKey c "description"
  let tn ← reqKey c "trigger_name"
  let tt ← reqKey c "trigger_timing"
  let te ← reqKey c "trigger_event"
  let tb ← reqKey c "table_name"
  let fn ← reqKey c "function_name"
  return "-- ".data ++ d.data ++ "\nCREATE TRIGGER ".data ++ tn.data ++
    "\n    ".data ++ tt.data ++ " ".data ++ te.data ++ " ON ".data ++
    tb.data ++ "\n    FOR EACH ROW EXECUTE FUNCTION ".data ++ fn.data ++
    "();".data

/-- `generate_migration` from `generate_migrations.py`: dispatch on `type`,
with the fallback `-- TODO: Implement <type> migration` placeholder. -/
def generate_migration (m : Migration) : Except String (List Char) :=
  if m.type = "extension" then renderExtension m.content
  else if m.type = "table" then renderTable m.content
  else if m.type = "index" then renderIndex m.content
  else if m.type = "function" then renderFunction m.content
  else if m.type = "trigger" then renderTrigger m.content
  else .ok ("-- TODO: Implement ".data ++ m.type.data ++ " migration".data)

/-- The module-level `MIGRATIONS = [...]` assignment performs no validation:
constructing the catalog is just forming the list. -/
def buildCatalog (defs : List Migration) : List Migration := defs

/-- Filename of a migration: `f"{number}_{name}.sql"`. -/
def migFilename (m : Migration) : String :=
  m.number ++ "_" ++ m.name ++ ".sql"

/-! ## The migration writer (`main` of `generate_migrations.py`) -/

/-- The filesystem, modelled as an association list `path → content`. -/
abbrev FS := List (String × List Char)

/-- `os.path.exists`. -/
def fsHas (fs : FS) (p : String) : Bool := fs.any (fun e => e.1 = p)

/-- Content of a path on the filesystem, if present. -/
def fsGet (fs : FS) (p : String) : Option (List Char) :=
  (fs.find? (fun e => e.1 = p)).map (fun e => e.2)

/-- Write outcome reported by the generation loop. -/
inductive WriteOutcome
  | Created
  | SkippedExisting
deriving DecidableEq

/-- The per-file body of `main` in `generate_migrations.py`, specialised to an
already-rendered migration: skip (and leave the filesystem untouched) when the
target path exists, otherwise create the file. -/
def write_if_new (fs : FS) (p : String) (content : List Char) :
    FS × WriteOutcome :=
  if fsHas fs p then (fs, .SkippedExisting)
  else (fs ++ [(p, content)], .Created)

/-- One iteration of the `for migration in MIGRATIONS` loop of
`generate_migrations.py`: existence check first, then render, then write. -/
def migration_main_step (fs : FS) (m : Migration) :
    Except String (FS × WriteOutcome) :=
  if fsHas fs (migFilename m) then .ok (fs, .SkippedExisting)
  else (generate_migration m).map fun content =>
    (fs ++ [(migFilename m, content)], .Created)

/-- Order in which `main` of `generate_migrations.py` emits files:
the literal order of the `MIGRATIONS` list. -/
def migrations_emit_order (ms : List Migration) : List String :=
  ms.map migFilename

/-! ## The rollback bundler (`main` of `generate_rollbacks.py`) -/

/-- Python string comparison: lexicographic by code point. -/
def lexLt : List Char → List Char → Bool
  | [], [] => false
  | [], _ :: _ => true
  | _ :: _, [] => false
  | a :: as, b :: bs => if a < b then true else if b < a then false else lexLt as bs

/-- Insert into a descending-sorted list. -/
def insertDesc (x : String) : List String → List String
  | [] => [x]
  | y :: ys => if lexLt x.data y.data then y :: insertDesc x ys else x :: y :: ys

/-- `migration_files.sort(reverse=True)`. -/
def sortDesc (l : List String) : List String := l.foldr insertDesc []

/-- The filter `f.endswith('.sql') and re.match(r'^\d{3}_', f)`. -/
def isMigrationFilename (f : String) : Bool :=
  (List.isSuffixOf ".sql".data f.data) &&
  (match f.data with
   | a :: b :: c :: d :: _ => a.isDigit && b.isDigit && c.isDigit && d = '_'
   | _ => false)

/-- The descending processing order of `main` in `generate_rollbacks.py`. -/
def rollback_processing_order (listing : List String) : List String :=
  sortDesc (listing.filter isMigrationFilename)

/-- Matcher for `^-- (.+)$` at a line start. -/
def descMatchAt (s : List Char) : Option (List Char) :=
  (stripHead "-- ".data s).bind fun r =>
    let run := r.takeWhile (fun c => c ≠ '\n')
    if run.isEmpty then none else some run

/-- Line starts strictly after the first character (positions after `\n`). -/
def scanLines : List Char → Option (List Char)
  | [] => none
  | c :: cs =>
    if c = '\n' then
      match descMatchAt cs with
      | some g => some g
      | none => scanLines cs
    else scanLines cs

/-- `re.search(r'^-- (.+)$', content, re.MULTILINE)`: first line that starts
with `-- `, capturing the rest of that line. -/
def firstCommentLine (s : List Char) : Option (List Char) :=
  match descMatchAt s with
  | some g => some g
  | none => scanLines s

/-- Content of one generated rollback file (`rollbacks/down_{f}`), or
`Except.error ()` when `generate_rollback` raises. -/
def rollback_file_content (filename : String) (content : List Char) :
    Except Unit (List Char) :=
  let e := extract_object_info content
  (generate_rollback e.kind e.name e.dependent).map fun sql =>
    "-- Rollback: ".data ++
    ((firstCommentLine content).getD ("Rollback ".data ++ filename.data)) ++
    "\n".data ++ sql ++
    (if e.kind = "TABLE" then
      "\n\n-- Note: This will cascade delete all dependent objects".data
     else []) ++
    "\n".data

/-- The per-file loop of `main` in `generate_rollbacks.py`, over the already
sorted migration file list with contents: it visits every file
unconditionally. -/
def rollback_run (files : List (String × List Char)) :
    List (String × Except Unit (List Char)) :=
  files.map fun fc => ("rollbacks/down_" ++ fc.1, rollback_file_content fc.1 fc.2)

/-- Content of `rollbacks/rollback_all.sql` as written by `main` of
`generate_rollbacks.py`, as a function of the sorted migration file list. -/
def rollback_all_content (files : List String) : List Char :=
  "-- Complete rollback of all migrations\n-- Run this to completely remove the schema\n\nBEGIN;\n\n".data
  ++ (files.map (fun f => "\\i ".data ++ f.data ++ "\n".data)).flatten
  ++ "\nCOMMIT;\n".data

/-! ## Lemmas about the search machinery -/

theorem stripHead_append (p r : List Char) : stripHead p (p ++ r) = some r := by
  induction p with
  | nil => rfl
  | cons a as ih => simp [stripHead, ih]

theorem stripHead_eq_some : ∀ {p s r : List Char}, stripHead p s = some r → s = p ++ r
  | [], _, _, h => by simpa [stripHead] using h
  | _ :: _, [], _, h => by simp [stripHead] at h
  | a :: as, b :: bs, r, h => by
    simp only [stripHead] at h
    by_cases hab : a = b
    · subst hab
      rw [if_pos rfl] at h
      rw [stripHead_eq_some h]
      rfl
    · rw [if_neg hab] at h
      exact absurd h (by simp)

theorem stripHead_eq_none {p s : List Char} (h : ¬ p <+: s) : stripHead p s = none := by
  cases hs : stripHead p s with
  | none => rfl
  | some r => exact absurd ⟨r, (stripHead_eq_some hs).symm⟩ h

theorem searchAux_at_head {m : List Char → Option α} {s : List Char} {v : α}
    (h : m s = some v) : searchAux m s = some v := by
  cases s with
  | nil => simpa [searchAux] using h
  | cons c cs => simp [searchAux, h]

/-- The matcher fails at every position starting inside `xs` (with `ys` after). -/
def FailsOn (m : List Char → Option α) (xs ys : List Char) : Prop :=
  ∀ t, t ≠ [] → t <:+ xs → m (t ++ ys) = none

theorem searchAux_append {m : List Char → Option α} {xs ys : List Char}
    (h : FailsOn m xs ys) : searchAux m (xs ++ ys) = searchAux m ys := by
  induction xs with
  | nil => rfl
  | cons c cs ih =>
    have h1 : m ((c :: cs) ++ ys) = none :=
      h (c :: cs) (by simp) (List.suffix_refl _)
    have h2 : FailsOn m cs ys := fun t ht hsuf =>
      h t ht (hsuf.trans (List.suffix_cons c cs))
    rw [List.cons_append] at h1
    simp only [List.cons_append, searchAux, List.append_eq, h1]
    exact ih h2

theorem searchAux_some_ex {m : List Char → Option α} {s : List Char} {v : α}
    (h : searchAux m s = some v) : ∃ t, t <:+ s ∧ m t = some v := by
  induction s with
  | nil => exact ⟨[], List.suffix_refl _, h⟩
  | cons c cs ih =>
    simp only [searchAux] at h
    cases hm : m (c :: cs) with
    | some w =>
      rw [hm] at h
      cases h
      exact ⟨c :: cs, List.suffix_refl _, hm⟩
    | none =>
      rw [hm] at h
      obtain ⟨t, hts, htm⟩ := ih h
      exact ⟨t, hts.trans (List.suffix_cons c cs), htm⟩

theorem searchAux_isSome_of {m : List Char → Option α} {s t : List Char}
    (hts : t <:+ s) (h : (m t).isSome) : (searchAux m s).isSome := by
  induction s with
  | nil =>
    rw [List.suffix_nil.mp hts] at h
    simpa [searchAux] using h
  | cons c cs ih =>
    rcases List.suffix_cons_iff.mp hts with rfl | h2
    · obtain ⟨v, hv⟩ := Option.isSome_iff_exists.mp h
      simp [searchAux, hv]
    · cases hm : m (c :: cs) with
      | some w => simp [searchAux, hm]
      | none => simpa [searchAux, hm] using ih h2

theorem containsL_of_mid {lit s : List Char} (h : lit <:+: s) :
    containsL lit s = true := by
  obtain ⟨a, b, rfl⟩ := h
  unfold containsL
  apply searchAux_isSome_of (t := lit ++ b)
  · rw [List.append_assoc]
    exact List.suffix_append _ _
  · rw [stripHead_append]
    rfl

/-- No occurrence of `lit` starts inside `xs` when `ys` follows. -/
def NPO (lit xs ys : List Char) : Prop :=
  ∀ t, t ≠ [] → t <:+ xs → ¬ lit <+: (t ++ ys)

theorem containsL_eq_false {lit s : List Char} (hne : lit ≠ [])
    (h : NPO lit s []) : containsL lit s = false := by
  unfold containsL
  cases hs : searchAux (fun t => stripHead lit t) s with
  | none => rfl
  | some v =>
    obtain ⟨t, hts, htm⟩ := searchAux_some_ex hs
    have hpre : lit <+: t := ⟨v, (stripHead_eq_some htm).symm⟩
    rcases List.eq_nil_or_concat t with rfl | _
    · exact absurd (List.prefix_nil.mp hpre) hne
    · have ht : t ≠ [] := by
        rintro rfl
        exact absurd (List.prefix_nil.mp hpre) hne
      refine absurd ?_ (h t ht hts)
      simpa using hpre

theorem suffix_append_cases {t a b : List Char} (h : t <:+ a ++ b) :
    t <:+ b ∨ ∃ u, u ≠ [] ∧ u <:+ a ∧ t = u ++ b := by
  induction a with
  | nil => exact Or.inl (by simpa using h)
  | cons c cs ih =>
    rw [List.cons_append] at h
    rcases List.suffix_cons_iff.mp h with rfl | h2
    · exact Or.inr ⟨c :: cs, by simp, List.suffix_refl _, by simp⟩
    · rcases ih h2 with h3 | ⟨u, hu1, hu2, hu3⟩
      · exact Or.inl h3
      · exact Or.inr ⟨u, hu1, hu2.trans (List.suffix_cons c cs), hu3⟩

theorem NPO.append {lit a b ys : List Char} (ha : NPO lit a (b ++ ys))
    (hb : NPO lit b ys) : NPO lit (a ++ b) ys := by
  intro t ht hsuf
  rcases suffix_append_cases hsuf with h1 | ⟨u, hu1, hu2, rfl⟩
  · exact hb t ht h1
  · rw [List.append_assoc]
    exact ha u hu1 hu2

theorem prefix_of_prefix_append_long {lit t z : List Char}
    (h : lit <+: t ++ z) (hl : lit.length ≤ t.length) : lit <+: t := by
  have h1 := List.prefix_iff_eq_take.mp h
  rw [List.take_append_of_le_length hl] at h1
  rw [h1]
  exact List.take_prefix _ _

theorem prefix_split_short {lit t z : List Char}
    (h : lit <+: t ++ z) (hl : t.length < lit.length) :
    ∃ w, lit = t ++ w ∧ w <+: z := by
  obtain ⟨r, hr⟩ := h
  have ht : t <+: lit := by
    apply prefix_of_prefix_append_long (z := r)
    · rw [hr]
      exact List.prefix_append t z
    · omega
  obtain ⟨w, hw⟩ := ht
  refine ⟨w, hw.symm, r, ?_⟩
  have h2 : t ++ (w ++ r) = t ++ z := by
    rw [← List.append_assoc, hw, hr]
  exact List.append_cancel_left h2

theorem infix_of_prefix_suffix {lit t x : List Char} (h1 : lit <+: t)
    (h2 : t <:+ x) : lit <:+: x :=
  h1.isInfix.trans h2.isInfix

/-- Every nonempty suffix of the concrete glue `g` mismatches `lit` within `g`
itself, so no occurrence of `lit` can start inside `g`, whatever follows. -/
def glueClear (lit g : List Char) : Bool :=
  g.tails.all fun t =>
    t.isEmpty || (!(List.isPrefixOf t lit) && !(List.isPrefixOf lit t))

theorem NPO_glue {lit g : List Char} (h : glueClear lit g = true) (ys : List Char) :
    NPO lit g ys := by
  intro t ht hsuf hpre
  have hmem : t ∈ g.tails := (List.mem_tails _ _).mpr hsuf
  have hck := List.all_eq_true.mp h t hmem
  rw [Bool.or_eq_true] at hck
  rcases hck with h1 | h2
  · exact ht (List.isEmpty_iff.mp h1)
  · rw [Bool.and_eq_true, Bool.not_eq_true', Bool.not_eq_true'] at h2
    by_cases hl : lit.length ≤ t.length
    · have h3 : List.isPrefixOf lit t = true := by
        rw [List.isPrefixOf_iff_prefix]
        exact prefix_of_prefix_append_long hpre hl
      rw [h2.2] at h3
      exact Bool.noConfusion h3
    · push_neg at hl
      obtain ⟨w, hw, _⟩ := prefix_split_short hpre hl
      have : t <+: lit := ⟨w, hw.symm⟩
      rw [← List.isPrefixOf_iff_prefix] at this
      rw [h2.1] at this
      exact Bool.noConfusion this

/-- For every `0 < j < lit.length`, the tail `lit.drop j` mismatches the
concrete continuation `conc` within `conc`: a partial occurrence of `lit`
cannot continue across the boundary into `conc ++ rest`. -/
def dropClear (lit conc : List Char) : Bool :=
  (List.range lit.length).all fun j =>
    j = 0 ||
    (!(List.isPrefixOf (lit.drop j) conc) && !(List.isPrefixOf conc (lit.drop j)))

theorem NPO_part {lit x conc rest : List Char}
    (hno : ¬ lit <:+: x) (hdc : dropClear lit conc = true) :
    NPO lit x (conc ++ rest) := by
  intro t ht hsuf hpre
  by_cases hl : lit.length ≤ t.length
  · exact hno (infix_of_prefix_suffix (prefix_of_prefix_append_long hpre hl) hsuf)
  · push_neg at hl
    obtain ⟨w, hw, hwz⟩ := prefix_split_short hpre hl
    have hwdrop : w = lit.drop t.length := by
      rw [hw]
      exact (List.drop_left t w).symm
    have hj : t.length ∈ List.range lit.length := List.mem_range.mpr hl
    have hck := List.all_eq_true.mp hdc _ hj
    rw [Bool.or_eq_true, Bool.and_eq_true, Bool.not_eq_true', Bool.not_eq_true'] at hck
    rcases hck with h0 | ⟨hp1, hp2⟩
    · have : t.length = 0 := by simpa using h0
      exact ht (List.length_eq_zero.mp this)
    · by_cases hwl : w.length ≤ conc.length
      · have h3 : (List.drop t.length lit).isPrefixOf conc = true := by
          rw [List.isPrefixOf_iff_prefix, ← hwdrop]
          exact prefix_of_prefix_append_long hwz hwl
        rw [hp1] at h3
        exact Bool.noConfusion h3
      · push_neg at hwl
        obtain ⟨v, hv, _⟩ := prefix_split_short hwz hwl
        have h3 : conc.isPrefixOf (List.drop t.length lit) = true := by
          rw [List.isPrefixOf_iff_prefix, ← hwdrop]
          exact ⟨v, hv.symm⟩
        rw [hp2] at h3
        exact Bool.noConfusion h3

theorem NPO_end {lit x : List Char} (hno : ¬ lit <:+: x) : NPO lit x [] := by
  intro t ht hsuf hpre
  rw [List.append_nil] at hpre
  exact hno (infix_of_prefix_suffix hpre hsuf)

theorem not_infix_word {lit x : List Char} {c : Char} (hc : c ∈ lit)
    (hcw : isWordChar c = false) (hx : x.all isWordChar = true) :
    ¬ lit <:+: x := by
  intro h
  have hmem : c ∈ x := h.sublist.subset hc
  have := List.all_eq_true.mp hx c hmem
  rw [hcw] at this
  exact Bool.noConfusion this

theorem not_infix_of_containsL_false {lit x : List Char}
    (h : containsL lit x = false) : ¬ lit <:+: x := by
  intro hinf
  rw [containsL_of_mid hinf] at h
  exact Bool.noConfusion h

theorem containsL_mono {lit lit' x : List Char} (hp : lit <+: lit')
    (h : containsL lit x = false) : ¬ lit' <:+: x := by
  intro hinf
  exact not_infix_of_containsL_false h (hp.isInfix.trans hinf)

theorem takeWhile_all_append {p : Char → Bool} {x : List Char} {c : Char}
    {r : List Char} (hx : x.all p = true) (hc : p c = false) :
    (x ++ c :: r).takeWhile p = x := by
  induction x with
  | nil => simp [List.takeWhile_cons, hc]
  | cons a as ih =>
    rw [List.all_cons, Bool.and_eq_true] at hx
    simp [List.takeWhile_cons, hx.1, ih hx.2]

/-! ## Rendered templates as sequences of glue and content pieces -/

/-- A rendered template piece: concrete glue text or an abstract content field. -/
inductive Piece
  | glue (g : List Char)
  | field (x : List Char)

/-- Concatenation of the pieces. -/
def renderPieces : List Piece → List Char
  | [] => []
  | .glue g :: ps => g ++ renderPieces ps
  | .field x :: ps => x ++ renderPieces ps

/-- Sufficient conditions for `lit` to have no occurrence starting inside the
rendered pieces when `ys` follows them. -/
def piecesOK (lit ys : List Char) : List Piece → Prop
  | [] => True
  | .glue g :: ps => glueClear lit g = true ∧ piecesOK lit ys ps
  | [.field x] =>
      ¬ lit <:+: x ∧
      (ys = [] ∨ ∃ conc rest, ys = conc ++ rest ∧ dropClear lit conc = true)
  | .field x :: .glue g :: ps =>
      ¬ lit <:+: x ∧ dropClear lit g = true ∧ piecesOK lit ys (.glue g :: ps)
  | .field _ :: .field _ :: _ => False

theorem NPO_pieces {lit ys : List Char} :
    ∀ {ps : List Piece}, piecesOK lit ys ps → NPO lit (renderPieces ps) ys
  | [], _ => by
    intro t ht hsuf
    rw [List.suffix_nil.mp hsuf] at ht
    exact absurd rfl ht
  | .glue g :: ps, h =>
    NPO.append (NPO_glue h.1 _) (NPO_pieces h.2)
  | [.field x], h => by
    have hbody : NPO lit x ys := by
      rcases h.2 with rfl | ⟨conc, rest, rfl, hdc⟩
      · exact NPO_end h.1
      · exact NPO_part h.1 hdc
    show NPO lit (x ++ []) ys
    intro t ht hsuf
    rw [List.append_nil] at hsuf
    exact hbody t ht hsuf
  | .field x :: .glue g :: ps, h => by
    refine NPO.append ?_ (NPO_pieces h.2.2)
    have := @NPO_part lit x g (renderPieces ps ++ ys) h.1 h.2.1
    show NPO lit x (g ++ renderPieces ps ++ ys)
    rw [List.append_assoc]
    exact this
  | .field _ :: .field _ :: _, h => h.elim

theorem FailsOn_of_NPO {α : Type} {lit xs ys : List Char}
    {m : List Char → Option α}
    (hm : ∀ s, ¬ lit <+: s → m s = none) (h : NPO lit xs ys) :
    FailsOn m xs ys :=
  fun t ht hsuf => hm _ (h t ht hsuf)

/-! ## Failure of each position matcher without its literal -/

theorem extMatchAt_none {s : List Char}
    (h : ¬ "CREATE EXTENSION IF NOT EXISTS ".data <+: s) :
    extMatchAt s = none := by
  unfold extMatchAt
  rw [stripHead_eq_none h]
  rfl

theorem litWordMatchAt_none {lit s : List Char} (h : ¬ lit <+: s) :
    litWordMatchAt lit s = none := by
  unfold litWordMatchAt
  rw [stripHead_eq_none h]
  rfl

theorem funcMatchAt_none {s : List Char} (h : ¬ "CREATE ".data <+: s) :
    funcMatchAt s = none := by
  unfold funcMatchAt
  rw [stripHead_eq_none h]
  rfl

theorem trigMatchAt_none {s : List Char} (h : ¬ "CREATE TRIGGER ".data <+: s) :
    trigMatchAt s = none := by
  unfold trigMatchAt
  rw [stripHead_eq_none h]
  rfl

theorem onMatchAt_none {s : List Char} (h : ¬ "ON ".data <+: s) :
    onMatchAt s = none := by
  unfold onMatchAt
  rw [stripHead_eq_none h]
  rfl

theorem viewMatchAt_none {s : List Char} (h : ¬ "CREATE ".data <+: s) :
    viewMatchAt s = none := by
  unfold viewMatchAt
  rw [stripHead_eq_none h]
  rfl

theorem descMatchAt_none {s : List Char} (h : ¬ "-- ".data <+: s) :
    descMatchAt s = none := by
  unfold descMatchAt
  rw [stripHead_eq_none h]
  rfl

/-- First position where the matcher succeeds: skip a failing region, then
match at its end. -/
theorem searchAux_split {α : Type} {m : List Char → Option α}
    {region tail : List Char} {v : α}
    (hf : FailsOn m region tail) (hm : m tail = some v) :
    searchAux m (region ++ tail) = some v := by
  rw [searchAux_append hf]
  exact searchAux_at_head hm

/-! ## Lemmas about the rightmost `ON (\w+)` search of the trigger pattern -/

theorem onRightmost_right_some {y : List Char} {g : List Char}
    (h : onRightmost y = some g) : ∀ x, onRightmost (x ++ y) = some g := by
  intro x
  induction x with
  | nil => exact h
  | cons c cs ih =>
    rw [List.cons_append]
    simp only [onRightmost, ih]

theorem onRightmost_append_none {x y : List Char} (hy : onRightmost y = none)
    (hx : FailsOn onMatchAt x y) : onRightmost (x ++ y) = none := by
  induction x with
  | nil => exact hy
  | cons c cs ih =>
    have h2 : FailsOn onMatchAt cs y := fun t ht hs =>
      hx t ht (hs.trans (List.suffix_cons c cs))
    have h1 : onMatchAt ((c :: cs) ++ y) = none :=
      hx _ (by simp) (List.suffix_refl _)
    rw [List.cons_append] at h1 ⊢
    simp only [onRightmost, ih h2]
    exact h1

theorem onMatchAt_some_ne {s g : List Char} (h : onMatchAt s = some g) :
    g ≠ [] := by
  unfold onMatchAt at h
  cases hs : stripHead "ON ".data s with
  | none =>
    rw [hs] at h
    exact absurd h (by simp)
  | some r =>
    rw [hs] at h
    by_cases he : (r.takeWhile isWordChar).isEmpty
    · exfalso
      rw [List.isEmpty_iff, List.takeWhile_eq_nil_iff] at he
      simp only [Option.bind_eq_bind, Option.some_bind] at h
      simp at h
      obtain ⟨⟨hlen, hw⟩, _⟩ := h
      refine absurd hw ?_
      simpa using he hlen
    · simp only [Option.bind_eq_bind, Option.some_bind, Bool.not_eq_true] at h
      rw [if_neg (by simp [he])] at h
      cases h
      exact fun hc => he (by simp [hc])

theorem onRightmost_some_ne {s g : List Char} (h : onRightmost s = some g) :
    g ≠ [] := by
  induction s with
  | nil => exact absurd h (by simp [onRightmost])
  | cons c cs ih =>
    simp only [onRightmost] at h
    cases hr : onRightmost cs with
    | some g2 =>
      rw [hr] at h
      cases h
      exact ih hr
    | none =>
      rw [hr] at h
      exact onMatchAt_some_ne h

theorem trigBacktrack_some_ne {run rest : List Char} :
    ∀ {k : Nat} {p : List Char × List Char},
      trigBacktrack run rest k = some p → p.2 ≠ []
  | 0, _, h => absurd h (by simp [trigBacktrack])
  | Nat.succ k, p, h => by
    simp only [trigBacktrack] at h
    cases hr : onRightmost (rest.drop (k + 1)) with
    | some g =>
      rw [hr] at h
      cases h
      exact onRightmost_some_ne hr
    | none =>
      rw [hr] at h
      exact trigBacktrack_some_ne h

theorem trigMatchAt_dep_ne {s : List Char} {p : List Char × List Char}
    (h : trigMatchAt s = some p) : p.2 ≠ [] := by
  unfold trigMatchAt at h
  cases hs : stripHead "CREATE TRIGGER ".data s with
  | none =>
    rw [hs] at h
    exact absurd h (by simp)
  | some rest =>
    rw [hs] at h
    simp only [Option.bind_eq_bind, Option.some_bind] at h
    exact trigBacktrack_some_ne h

/-- Output of a guarded `(if guard then s.map f else none)` branch. -/
theorem guarded_map_shape {β γ : Type} {guard : Prop} [Decidable guard]
    {s : Option β} {f : β → γ} {e : γ}
    (h : (if guard then s.map f else none) = some e) :
    ∃ b, s = some b ∧ e = f b := by
  by_cases hg : guard
  · rw [if_pos hg] at h
    cases hs : s with
    | none =>
      rw [hs] at h
      exact absurd h (by simp)
    | some b =>
      rw [hs] at h
      exact ⟨b, rfl, by simpa using h.symm⟩
  · rw [if_neg hg] at h
    exact absurd h (by simp)

/-! ## Claim C2 — trigger extraction at the spec's test input -/

/-- The SQL text of the spec's trigger-extraction test case. -/
def c2sql : String :=
  "CREATE TRIGGER trg_a BEFORE INSERT ON orders FOR EACH ROW EXECUTE FUNCTION f();"

/-- **C2.** What the code actually does at the spec's trigger test input: the
greedy `.*` of `CREATE TRIGGER (\w+).*ON (\w+)` (DOTALL) backtracks to the
rightmost `ON ` followed by a word, which is the `ON` inside the word
`FUNCTION`, so the extracted dependent is `f` (the trigger function), not
`orders` (the table), and the rendered rollback is
`DROP TRIGGER IF EXISTS trg_a ON f;`. -/
theorem C2_trigger_extraction_code_behavior :
    extract_object_info c2sql.data =
      ⟨"TRIGGER", "trg_a".data, some "f".data⟩ ∧
    generate_rollback "TRIGGER" "trg_a".data (some "f".data) =
      .ok "DROP TRIGGER IF EXISTS trg_a ON f;".data ∧
    ("f".data : List Char) ≠ "orders".data ∧
    ("DROP TRIGGER IF EXISTS trg_a ON f;".data : List Char) ≠
      "DROP TRIGGER IF EXISTS trg_a ON orders;".data := by
  refine ⟨by decide, rfl, by decide, by decide⟩

/-! ## Claim C9 — placeholder rendering for template-less kinds -/

/-- **C9.** For every definition of kind `view`, `materialized_view` or `seed`,
`generate_migration` returns the `-- TODO: Implement <kind> migration`
placeholder instead of raising an error. -/
theorem C9_placeholder_for_templateless_kinds (m : Migration)
    (h : m.type = "view" ∨ m.type = "materialized_view" ∨ m.type = "seed") :
    generate_migration m =
      .ok ("-- TODO: Implement ".data ++ m.type.data ++ " migration".data) := by
  unfold generate_migration
  rcases h with h | h | h <;> rw [h] <;> rfl

/-- Witness for C9 at a concrete `view` definition. -/
theorem C9_witness :
    (("view" : String) = "view" ∨ ("view" : String) = "materialized_view" ∨
      ("view" : String) = "seed") ∧
    generate_migration ⟨"030", "create_v", "view", []⟩ =
      .ok ("-- TODO: Implement ".data ++ ("view" : String).data ++
           " migration".data) :=
  ⟨Or.inl rfl,
   C9_placeholder_for_templateless_kinds ⟨"030", "create_v", "view", []⟩
     (Or.inl rfl)⟩

/-! ## Claim C5 — at-most-once file generation -/

theorem fsHas_of_fsGet {fs : FS} {p : String} {c : List Char}
    (h : fsGet fs p = some c) : fsHas fs p = true := by
  unfold fsGet at h
  cases hf : fs.find? (fun e => e.1 = p) with
  | none =>
    rw [hf] at h
    exact absurd h (by simp)
  | some e =>
    have hmem := List.mem_of_find?_eq_some hf
    have hp := List.find?_some hf
    unfold fsHas
    rw [List.any_eq_true]
    exact ⟨e, hmem, hp⟩

/-- **C5.** Writing the same rendered migration twice creates exactly one file:
the first invocation reports `Created`, the second reports `SkippedExisting`
and leaves the filesystem (hence the file's content) unchanged; and in
general a path that already exists is never overwritten. -/
theorem C5_writer_at_most_once (fs : FS) (p : String) (c : List Char)
    (h : fsHas fs p = false) :
    (write_if_new fs p c).2 = .Created ∧
    (write_if_new (write_if_new fs p c).1 p c).2 = .SkippedExisting ∧
    (write_if_new (write_if_new fs p c).1 p c).1 = (write_if_new fs p c).1 ∧
    fsGet (write_if_new fs p c).1 p = some c ∧
    ((write_if_new fs p c).1.filter (fun e => e.1 = p)).length = 1 ∧
    (∀ (fs' : FS) (c₀ c' : List Char), fsGet fs' p = some c₀ →
      write_if_new fs' p c' = (fs', .SkippedExisting)) := by
  have hstep : write_if_new fs p c = (fs ++ [(p, c)], .Created) := by
    unfold write_if_new
    rw [h]
    rfl
  have hfind : fs.find? (fun e => e.1 = p) = none := by
    rw [List.find?_eq_none]
    intro x hx
    intro hxp
    have hgen : fsHas fs p = true := by
      unfold fsHas
      rw [List.any_eq_true]
      exact ⟨x, hx, hxp⟩
    rw [h] at hgen
    exact Bool.noConfusion hgen
  have hhas1 : fsHas (fs ++ [(p, c)]) p = true := by
    unfold fsHas
    rw [List.any_append]
    simp
  refine ⟨by rw [hstep], ?_, ?_, ?_, ?_, ?_⟩
  · rw [hstep]
    unfold write_if_new
    rw [hhas1]
    rfl
  · rw [hstep]
    unfold write_if_new
    rw [hhas1]
    rfl
  · rw [hstep]
    unfold fsGet
    rw [List.find?_append, hfind]
    simp
  · rw [hstep]
    rw [List.filter_append]
    have h0 : fs.filter (fun e => e.1 = p) = [] := by
      rw [List.filter_eq_nil_iff]
      intro x hx hxp
      have hgen : fsHas fs p = true := by
        unfold fsHas
        rw [List.any_eq_true]
        exact ⟨x, hx, hxp⟩
      rw [h] at hgen
      exact Bool.noConfusion hgen
    rw [h0]
    simp
  · intro fs' c₀ c' hget
    unfold write_if_new
    rw [fsHas_of_fsGet hget]
    rfl

/-- Witness for C5 at a concrete filesystem state. -/
theorem C5_witness :
    fsHas [] "001_enable_uuid_extension.sql" = false ∧
    ((write_if_new [] "001_enable_uuid_extension.sql" "x".data).2 = .Created ∧
     (write_if_new (write_if_new [] "001_enable_uuid_extension.sql" "x".data).1
        "001_enable_uuid_extension.sql" "x".data).2 = .SkippedExisting ∧
     (write_if_new (write_if_new [] "001_enable_uuid_extension.sql" "x".data).1
        "001_enable_uuid_extension.sql" "x".data).1 =
       (write_if_new [] "001_enable_uuid_extension.sql" "x".data).1 ∧
     fsGet (write_if_new [] "001_enable_uuid_extension.sql" "x".data).1
        "001_enable_uuid_extension.sql" = some "x".data ∧
     ((write_if_new [] "001_enable_uuid_extension.sql" "x".data).1.filter
        (fun e => e.1 = "001_enable_uuid_extension.sql")).length = 1 ∧
     (∀ (fs' : FS) (c₀ c' : List Char),
        fsGet fs' "001_enable_uuid_extension.sql" = some c₀ →
        write_if_new fs' "001_enable_uuid_extension.sql" c' =
          (fs', .SkippedExisting))) :=
  ⟨rfl, C5_writer_at_most_once [] "001_enable_uuid_extension.sql" "x".data rfl⟩

/-! ## Claim C3 — catalog construction performs no validation -/

/-- A `kind=table` definition missing the required `columns` content key. -/
def missingColumnsDef : Migration :=
  ⟨"099", "bad_table", "table",
   [("description", "Bad table"), ("table_name", "bad"), ("comment", "x")]⟩

/-- **C3 counterexample.** Constructing the catalog with a table definition
that lacks `columns` does not fail (the `MIGRATIONS` list literal performs no
validation); the failure is a missing-key error raised only when the
definition is rendered. -/
theorem C3_counterexample :
    buildCatalog [missingColumnsDef] = [missingColumnsDef] ∧
    generate_migration missingColumnsDef = .error "columns" :=
  ⟨rfl, rfl⟩

/-- **C3 (amended).** A `kind=table` definition missing `columns` (with the
keys the template reads before it present) passes catalog construction
unvalidated and instead fails at render time inside the main loop, with the
missing-key error naming `columns`; the error is raised before the file write,
so nothing is written for that migration. -/
theorem C3_amended_render_time_failure (fs : FS) (m : Migration)
    (hty : m.type = "table")
    (hd : (getKey m.content "description").isSome)
    (ht : (getKey m.content "table_name").isSome)
    (hc : getKey m.content "columns" = none)
    (hfs : fsHas fs (migFilename m) = false) :
    buildCatalog [m] = [m] ∧
    migration_main_step fs m = .error "columns" := by
  refine ⟨rfl, ?_⟩
  obtain ⟨d, hdv⟩ := Option.isSome_iff_exists.mp hd
  obtain ⟨t, htv⟩ := Option.isSome_iff_exists.mp ht
  unfold migration_main_step
  rw [hfs]
  simp only [Bool.false_eq_true, if_false]
  unfold generate_migration
  rw [hty]
  simp only [reduceIte]
  unfold renderTable reqKey
  rw [hdv, htv, hc]
  rfl

/-- Witness for C3's amended claim at a concrete state. -/
theorem C3_witness :
    (missingColumnsDef.type = "table" ∧
     (getKey missingColumnsDef.content "description").isSome = true ∧
     (getKey missingColumnsDef.content "table_name").isSome = true ∧
     getKey missingColumnsDef.content "columns" = none ∧
     fsHas [] (migFilename missingColumnsDef) = false) ∧
    (buildCatalog [missingColumnsDef] = [missingColumnsDef] ∧
     migration_main_step [] missingColumnsDef = .error "columns") :=
  ⟨⟨rfl, rfl, rfl, rfl, rfl⟩,
   C3_amended_render_time_failure [] missingColumnsDef rfl rfl rfl rfl rfl⟩

/-! ## Claim C10 — dependent is populated exactly for triggers -/

theorem tryExtension_shape {sql : List Char} {e : Extracted}
    (h : tryExtension sql = some e) : ∃ n, e = ⟨"EXTENSION", n, none⟩ := by
  unfold tryExtension at h
  obtain ⟨b, _, rfl⟩ := guarded_map_shape h
  exact ⟨b, rfl⟩

theorem tryTable_shape {sql : List Char} {e : Extracted}
    (h : tryTable sql = some e) : ∃ n, e = ⟨"TABLE", n, none⟩ := by
  unfold tryTable at h
  obtain ⟨b, _, rfl⟩ := guarded_map_shape h
  exact ⟨b, rfl⟩

theorem tryIndex_shape {sql : List Char} {e : Extracted}
    (h : tryIndex sql = some e) : ∃ n, e = ⟨"INDEX", n, none⟩ := by
  unfold tryIndex at h
  obtain ⟨b, _, rfl⟩ := guarded_map_shape h
  exact ⟨b, rfl⟩

theorem tryFunction_shape {sql : List Char} {e : Extracted}
    (h : tryFunction sql = some e) : ∃ n, e = ⟨"FUNCTION", n, none⟩ := by
  unfold tryFunction at h
  obtain ⟨b, _, rfl⟩ := guarded_map_shape h
  exact ⟨b, rfl⟩

theorem tryTrigger_shape {sql : List Char} {e : Extracted}
    (h : tryTrigger sql = some e) :
    ∃ n d, d ≠ [] ∧ e = ⟨"TRIGGER", n, some d⟩ := by
  unfold tryTrigger at h
  obtain ⟨b, hb, rfl⟩ := guarded_map_shape h
  obtain ⟨t, _, htm⟩ := searchAux_some_ex hb
  exact ⟨b.1, b.2, trigMatchAt_dep_ne htm, rfl⟩

theorem tryView_shape {sql : List Char} {e : Extracted}
    (h : tryView sql = some e) :
    ∃ n, e = ⟨"MATERIALIZED VIEW", n, none⟩ ∨ e = ⟨"VIEW", n, none⟩ := by
  unfold tryView at h
  obtain ⟨b, _, rfl⟩ := guarded_map_shape h
  refine ⟨b, ?_⟩
  by_cases hm : containsL "MATERIALIZED".data sql
  · rw [if_pos hm]
    exact Or.inl rfl
  · rw [if_neg hm]
    exact Or.inr rfl

theorem trySeed_shape {sql : List Char} {e : Extracted}
    (h : trySeed sql = some e) : ∃ n, e = ⟨"SEED", n, none⟩ := by
  unfold trySeed at h
  obtain ⟨b, _, rfl⟩ := guarded_map_shape h
  exact ⟨b, rfl⟩

/-- **C10.** For every input SQL text, `extract_object_info` returns a
non-`none` dependent exactly when the returned kind is `TRIGGER`, and on every
extractor output `generate_rollback` succeeds: the two-placeholder trigger
template is never applied with a missing second argument, so the composition is
total over extractor outputs. -/
theorem C10_dependent_iff_trigger (sql : List Char) :
    ((extract_object_info sql).dependent ≠ none ↔
      (extract_object_info sql).kind = "TRIGGER") ∧
    ∃ r, generate_rollback (extract_object_info sql).kind
        (extract_object_info sql).name (extract_object_info sql).dependent =
      .ok r := by
  unfold extract_object_info
  cases h1 : tryExtension sql with
  | some e =>
    obtain ⟨n, rfl⟩ := tryExtension_shape h1
    exact ⟨by simp, _, rfl⟩
  | none =>
  cases h2 : tryTable sql with
  | some e =>
    obtain ⟨n, rfl⟩ := tryTable_shape h2
    exact ⟨by simp, _, rfl⟩
  | none =>
  cases h3 : tryIndex sql with
  | some e =>
    obtain ⟨n, rfl⟩ := tryIndex_shape h3
    exact ⟨by simp, _, rfl⟩
  | none =>
  cases h4 : tryFunction sql with
  | some e =>
    obtain ⟨n, rfl⟩ := tryFunction_shape h4
    exact ⟨by simp, _, rfl⟩
  | none =>
  cases h5 : tryTrigger sql with
  | some e =>
    obtain ⟨n, d, hd, rfl⟩ := tryTrigger_shape h5
    have hdt : depTruthy (some d) = true := by
      unfold depTruthy
      rw [Bool.not_eq_true']
      rw [← Bool.not_eq_true]
      intro hc
      exact hd (List.isEmpty_iff.mp hc)
    refine ⟨by simp, ?_⟩
    have hok : generate_rollback "TRIGGER" n (some d) =
        .ok ("DROP TRIGGER IF EXISTS ".data ++ n ++ " ON ".data ++ d ++
             ";".data) := by
      unfold generate_rollback
      rw [hdt]
      rfl
    exact ⟨_, hok⟩
  | none =>
  cases h6 : tryView sql with
  | some e =>
    obtain ⟨n, he | he⟩ := tryView_shape h6 <;> subst he <;>
      exact ⟨by simp, _, rfl⟩
  | none =>
  cases h7 : trySeed sql with
  | some e =>
    obtain ⟨n, rfl⟩ := trySeed_shape h7
    exact ⟨by simp, _, rfl⟩
  | none =>
    exact ⟨by simp, _, rfl⟩

/-! ## Claim C7 — unmatched SQL degrades gracefully -/

/-- **C7.** When none of the seven extraction patterns fires, the extractor
returns `(UNKNOWN, unknown)` instead of raising; the rollback for such a file
is the manual-rollback placeholder comment (not a DROP statement); and the
per-file loop processes every file regardless, so the batch continues. -/
theorem C7_unknown_degrades_gracefully (sql : List Char)
    (h1 : tryExtension sql = none) (h2 : tryTable sql = none)
    (h3 : tryIndex sql = none) (h4 : tryFunction sql = none)
    (h5 : tryTrigger sql = none) (h6 : tryView sql = none)
    (h7 : trySeed sql = none) :
    extract_object_info sql = ⟨"UNKNOWN", "unknown".data, none⟩ ∧
    generate_rollback "UNKNOWN" "unknown".data none =
      .ok "-- TODO: Manual rollback required for UNKNOWN unknown".data ∧
    ¬ ("DROP".data <+:
        "-- TODO: Manual rollback required for UNKNOWN unknown".data) ∧
    (∀ fname : String, rollback_file_content fname sql =
      .ok ("-- Rollback: ".data ++
        ((firstCommentLine sql).getD ("Rollback ".data ++ fname.data)) ++
        "\n".data ++
        "-- TODO: Manual rollback required for UNKNOWN unknown".data ++
        "\n".data)) ∧
    (∀ files : List (String × List Char),
      (rollback_run files).length = files.length) := by
  have hex : extract_object_info sql = ⟨"UNKNOWN", "unknown".data, none⟩ := by
    unfold extract_object_info
    rw [h1, h2, h3, h4, h5, h6, h7]
  refine ⟨hex, rfl, by decide, ?_, ?_⟩
  · intro fname
    unfold rollback_file_content
    rw [hex]
    simp [generate_rollback, Except.map]
  · intro files
    unfold rollback_run
    rw [List.length_map]

/-- Witness for C7 at the concrete input `SELECT 1;`. -/
theorem C7_witness :
    (tryExtension "SELECT 1;".data = none ∧ tryTable "SELECT 1;".data = none ∧
     tryIndex "SELECT 1;".data = none ∧ tryFunction "SELECT 1;".data = none ∧
     tryTrigger "SELECT 1;".data = none ∧ tryView "SELECT 1;".data = none ∧
     trySeed "SELECT 1;".data = none) ∧
    extract_object_info "SELECT 1;".data =
      ⟨"UNKNOWN", "unknown".data, none⟩ :=
  ⟨⟨by decide, by decide, by decide, by decide, by decide, by decide, by decide⟩,
   (C7_unknown_degrades_gracefully "SELECT 1;".data (by decide) (by decide)
     (by decide) (by decide) (by decide) (by decide) (by decide)).1⟩

/-! ## Claim C8 — fixed priority order of the extraction patterns -/

/-- The seven pattern branches of `extract_object_info` in the fixed priority
order of the source: extension, table, index, function, trigger, view, seed. -/
def prioritySlot : Nat → (List Char → Option Extracted)
  | 0 => tryExtension
  | 1 => tryTable
  | 2 => tryIndex
  | 3 => tryFunction
  | 4 => tryTrigger
  | 5 => tryView
  | _ => trySeed

/-- **C8.** Whenever any pattern of the priority list fires on a SQL text,
the extractor's result is the output of the first firing pattern in the fixed
priority order — a characterization independent of the textual order in which
the constructs appear in the file. -/
theorem C8_priority_first_match (sql : List Char) (i : Nat) (hi : i ≤ 6)
    (h : (prioritySlot i sql).isSome = true) :
    ∃ j, j ≤ i ∧ prioritySlot j sql = some (extract_object_info sql) := by
  cases hE : tryExtension sql with
  | some e =>
    refine ⟨0, Nat.zero_le i, ?_⟩
    show tryExtension sql = _
    unfold extract_object_info
    rw [hE]
  | none =>
  cases hT : tryTable sql with
  | some e =>
    refine ⟨1, ?_, ?_⟩
    · by_contra hlt
      have h0 : i = 0 := by omega
      subst h0
      rw [show prioritySlot 0 = tryExtension from rfl, hE] at h
      exact Bool.noConfusion h
    · show tryTable sql = _
      unfold extract_object_info
      rw [hE, hT]
  | none =>
  cases hI : tryIndex sql with
  | some e =>
    refine ⟨2, ?_, ?_⟩
    · by_contra hlt
      have h0 : i = 0 ∨ i = 1 := by omega
      rcases h0 with rfl | rfl
      · rw [show prioritySlot 0 = tryExtension from rfl, hE] at h
        exact Bool.noConfusion h
      · rw [show prioritySlot 1 = tryTable from rfl, hT] at h
        exact Bool.noConfusion h
    · show tryIndex sql = _
      unfold extract_object_info
      rw [hE, hT, hI]
  | none =>
  cases hF : tryFunction sql with
  | some e =>
    refine ⟨3, ?_, ?_⟩
    · by_contra hlt
      have h0 : i = 0 ∨ i = 1 ∨ i = 2 := by omega
      rcases h0 with rfl | rfl | rfl
      · rw [show prioritySlot 0 = tryExtension from rfl, hE] at h
        exact Bool.noConfusion h
      · rw [show prioritySlot 1 = tryTable from rfl, hT] at h
        exact Bool.noConfusion h
      · rw [show prioritySlot 2 = tryIndex from rfl, hI] at h
        exact Bool.noConfusion h
    · show tryFunction sql = _
      unfold extract_object_info
      rw [hE, hT, hI, hF]
  | none =>
  cases hG : tryTrigger sql with
  | some e =>
    refine ⟨4, ?_, ?_⟩
    · by_contra hlt
      have h0 : i = 0 ∨ i = 1 ∨ i = 2 ∨ i = 3 := by omega
      rcases h0 with rfl | rfl | rfl | rfl
      · rw [show prioritySlot 0 = tryExtension from rfl, hE] at h
        exact Bool.noConfusion h
      · rw [show prioritySlot 1 = tryTable from rfl, hT] at h
        exact Bool.noConfusion h
      · rw [show prioritySlot 2 = tryIndex from rfl, hI] at h
        exact Bool.noConfusion h
      · rw [show prioritySlot 3 = tryFunction from rfl, hF] at h
        exact Bool.noConfusion h
    · show tryTrigger sql = _
      unfold extract_object_info
      rw [hE, hT, hI, hF, hG]
  | none =>
  cases hV : tryView sql with
  | some e =>
    refine ⟨5, ?_, ?_⟩
    · by_contra hlt
      have h0 : i = 0 ∨ i = 1 ∨ i = 2 ∨ i = 3 ∨ i = 4 := by omega
      rcases h0 with rfl | rfl | rfl | rfl | rfl
      · rw [show prioritySlot 0 = tryExtension from rfl, hE] at h
        exact Bool.noConfusion h
      · rw [show prioritySlot 1 = tryTable from rfl, hT] at h
        exact Bool.noConfusion h
      · rw [show prioritySlot 2 = tryIndex from rfl, hI] at h
        exact Bool.noConfusion h
      · rw [show prioritySlot 3 = tryFunction from rfl, hF] at h
        exact Bool.noConfusion h
      · rw [show prioritySlot 4 = tryTrigger from rfl, hG] at h
        exact Bool.noConfusion h
    · show tryView sql = _
      unfold extract_object_info
      rw [hE, hT, hI, hF, hG, hV]
  | none =>
  cases hS : trySeed sql with
  | some e =>
    refine ⟨6, ?_, ?_⟩
    · by_contra hlt
      have h0 : i = 0 ∨ i = 1 ∨ i = 2 ∨ i = 3 ∨ i = 4 ∨ i = 5 := by omega
      rcases h0 with rfl | rfl | rfl | rfl | rfl | rfl
      · rw [show prioritySlot 0 = tryExtension from rfl, hE] at h
        exact Bool.noConfusion h
      · rw [show prioritySlot 1 = tryTable from rfl, hT] at h
        exact Bool.noConfusion h
      · rw [show prioritySlot 2 = tryIndex from rfl, hI] at h
        exact Bool.noConfusion h
      · rw [show prioritySlot 3 = tryFunction from rfl, hF] at h
        exact Bool.noConfusion h
      · rw [show prioritySlot 4 = tryTrigger from rfl, hG] at h
        exact Bool.noConfusion h
      · rw [show prioritySlot 5 = tryView from rfl, hV] at h
        exact Bool.noConfusion h
    · show trySeed sql = _
      unfold extract_object_info
      rw [hE, hT, hI, hF, hG, hV, hS]
  | none =>
    exfalso
    have h0 : i = 0 ∨ i = 1 ∨ i = 2 ∨ i = 3 ∨ i = 4 ∨ i = 5 ∨ i = 6 := by omega
    rcases h0 with rfl | rfl | rfl | rfl | rfl | rfl | rfl
    · rw [show prioritySlot 0 = tryExtension from rfl, hE] at h
      exact Bool.noConfusion h
    · rw [show prioritySlot 1 = tryTable from rfl, hT] at h
      exact Bool.noConfusion h
    · rw [show prioritySlot 2 = tryIndex from rfl, hI] at h
      exact Bool.noConfusion h
    · rw [show prioritySlot 3 = tryFunction from rfl, hF] at h
      exact Bool.noConfusion h
    · rw [show prioritySlot 4 = tryTrigger from rfl, hG] at h
      exact Bool.noConfusion h
    · rw [show prioritySlot 5 = tryView from rfl, hV] at h
      exact Bool.noConfusion h
    · rw [show prioritySlot 6 = trySeed from rfl, hS] at h
      exact Bool.noConfusion h

/-- A file whose trigger construct appears textually before its companion
function definition: the extractor still reports the function (priority 4)
rather than the trigger (priority 5). -/
def c8sql : String :=
  "CREATE TRIGGER upd_t BEFORE UPDATE ON items FOR EACH ROW EXECUTE FUNCTION touch();\nCREATE OR REPLACE FUNCTION touch()\nRETURNS trigger AS $$ $$;"

/-- Witness for C8: the trigger pattern (priority index 4) fires on `c8sql`,
yet the extractor's result comes from the function pattern (index 3 ≤ 4),
against the textual order. -/
theorem C8_witness :
    ((4 : Nat) ≤ 6 ∧ (prioritySlot 4 c8sql.data).isSome = true) ∧
    (∃ j, j ≤ 4 ∧ prioritySlot j c8sql.data =
      some (extract_object_info c8sql.data)) :=
  ⟨⟨by decide, by decide⟩,
   C8_priority_first_match c8sql.data 4 (by decide) (by decide)⟩

/-! ## Order lemmas for `sort(reverse=True)` -/

theorem lexLt_irrefl : ∀ l : List Char, lexLt l l = false
  | [] => rfl
  | c :: cs => by simp [lexLt, lexLt_irrefl cs]

theorem lexLt_trichotomy : ∀ a b : List Char,
    lexLt a b = false → a = b ∨ lexLt b a = true
  | [], [], _ => Or.inl rfl
  | [], _ :: _, h => by simp [lexLt] at h
  | _ :: _, [], _ => Or.inr rfl
  | a :: as, b :: bs, h => by
    simp only [lexLt] at h ⊢
    by_cases hab : a < b
    · rw [if_pos hab] at h
      exact Bool.noConfusion h
    · rw [if_neg hab] at h
      by_cases hba : b < a
      · refine Or.inr ?_
        rw [if_pos hba]
      · rw [if_neg hba] at h
        have hEq : a = b := le_antisymm (not_lt.mp hba) (not_lt.mp hab)
        subst hEq
        rcases lexLt_trichotomy as bs h with rfl | h2
        · exact Or.inl rfl
        · refine Or.inr ?_
          rw [if_neg (lt_irrefl a), if_neg (lt_irrefl a)]
          exact h2

theorem lexLt_true_trans : ∀ {a b c : List Char},
    lexLt a b = true → lexLt b c = true → lexLt a c = true
  | [], [], _, h1, _ => Bool.noConfusion h1
  | [], _ :: _, [], _, h2 => by simp [lexLt] at h2
  | [], _ :: _, _ :: _, _, _ => rfl
  | _ :: _, [], _, h1, _ => by simp [lexLt] at h1
  | _ :: _, _ :: _, [], _, h2 => by simp [lexLt] at h2
  | a :: as, b :: bs, c :: cs, h1, h2 => by
    simp only [lexLt] at h1 h2 ⊢
    by_cases hab : a < b
    · by_cases hbc : b < c
      · rw [if_pos (lt_trans hab hbc)]
      · rw [if_neg hbc] at h2
        by_cases hcb : c < b
        · rw [if_pos hcb] at h2
          exact Bool.noConfusion h2
        · have hEq : b = c := le_antisymm (not_lt.mp hcb) (not_lt.mp hbc)
          subst hEq
          rw [if_pos hab]
    · rw [if_neg hab] at h1
      by_cases hba : b < a
      · rw [if_pos hba] at h1
        exact Bool.noConfusion h1
      · have hEq : a = b := le_antisymm (not_lt.mp hba) (not_lt.mp hab)
        subst hEq
        rw [if_neg (lt_irrefl a)] at h1
        by_cases hac : a < c
        · rw [if_pos hac]
        · rw [if_neg hac] at h2 ⊢
          by_cases hca : c < a
          · rw [if_pos hca] at h2
            exact Bool.noConfusion h2
          · rw [if_neg hca] at h2 ⊢
            exact lexLt_true_trans h1 h2

theorem lexLt_asymm {a b : List Char} (h : lexLt a b = true) :
    lexLt b a = false := by
  cases hb : lexLt b a with
  | false => rfl
  | true =>
    have := lexLt_true_trans h hb
    rw [lexLt_irrefl] at this
    exact Bool.noConfusion this

theorem lexLt_false_trans {a b c : List Char} (h1 : lexLt a b = false)
    (h2 : lexLt b c = false) : lexLt a c = false := by
  rcases lexLt_trichotomy _ _ h1 with rfl | hba
  · exact h2
  · rcases lexLt_trichotomy _ _ h2 with rfl | hcb
    · exact h1
    · exact lexLt_asymm (lexLt_true_trans hcb hba)

/-- Descending order between filenames, as used by the reverse sort. -/
def GeStr (a b : String) : Prop := lexLt a.data b.data = false

theorem insertDesc_perm (x : String) :
    ∀ l : List String, (insertDesc x l).Perm (x :: l)
  | [] => List.Perm.refl _
  | y :: ys => by
    unfold insertDesc
    by_cases h : lexLt x.data y.data = true
    · rw [if_pos h]
      exact ((insertDesc_perm x ys).cons y).trans (List.Perm.swap x y ys)
    · rw [if_neg h]

theorem sortDesc_perm : ∀ l : List String, (sortDesc l).Perm l
  | [] => List.Perm.refl _
  | x :: xs =>
    (insertDesc_perm x (sortDesc xs)).trans ((sortDesc_perm xs).cons x)

theorem insertDesc_pairwise {x : String} {l : List String}
    (hl : l.Pairwise GeStr) : (insertDesc x l).Pairwise GeStr := by
  induction l with
  | nil => simp [insertDesc]
  | cons y ys ih =>
    rw [List.pairwise_cons] at hl
    obtain ⟨hy, hys⟩ := hl
    unfold insertDesc
    by_cases h : lexLt x.data y.data = true
    · rw [if_pos h]
      rw [List.pairwise_cons]
      refine ⟨?_, ih hys⟩
      intro w hw
      have hmem := (insertDesc_perm x ys).mem_iff.mp hw
      rcases List.mem_cons.mp hmem with rfl | hwys
      · exact lexLt_asymm h
      · exact hy w hwys
    · rw [if_neg h]
      rw [List.pairwise_cons]
      refine ⟨?_, ?_⟩
      · intro w hw
        rcases List.mem_cons.mp hw with rfl | hwys
        · exact Bool.eq_false_iff.mpr h
        · exact lexLt_false_trans (Bool.eq_false_iff.mpr h) (hy w hwys)
      · rw [List.pairwise_cons]
        exact ⟨hy, hys⟩

theorem sortDesc_pairwise : ∀ l : List String, (sortDesc l).Pairwise GeStr
  | [] => List.Pairwise.nil
  | _ :: xs => insertDesc_pairwise (sortDesc_pairwise xs)

/-! ## Numeric prefixes of migration filenames -/

/-- Numeric value of the three-digit filename prefix. -/
def num3 : List Char → Nat
  | c0 :: c1 :: c2 :: _ =>
    ((c0.toNat - 48) * 10 + (c1.toNat - 48)) * 10 + (c2.toNat - 48)
  | _ => 0

theorem digit_toNat_bounds {c : Char} (h : c.isDigit = true) :
    48 ≤ c.toNat ∧ c.toNat ≤ 57 := by
  unfold Char.isDigit at h
  rw [Bool.and_eq_true] at h
  obtain ⟨h1, h2⟩ := h
  have h1' : c.val ≥ 48 := of_decide_eq_true h1
  have h2' : c.val ≤ 57 := of_decide_eq_true h2
  constructor
  · exact UInt32.le_toNat_of_le (by norm_num) h1'
  · exact UInt32.toNat_le_of_le (by norm_num) h2'

theorem char_lt_toNat {a b : Char} (h : a < b) : a.toNat < b.toNat := by
  rw [Char.lt_def, UInt32.lt_def, BitVec.lt_def] at h
  exact h

theorem char_eq_of_toNat_eq {a b : Char} (h : a.toNat = b.toNat) : a = b := by
  apply Char.ext
  exact UInt32.toNat.inj h

/-- Shape of a filename accepted by the migration-file filter. -/
theorem mig_shape {f : String} (h : isMigrationFilename f = true) :
    ∃ a0 a1 a2 r, f.data = a0 :: a1 :: a2 :: '_' :: r ∧
      a0.isDigit = true ∧ a1.isDigit = true ∧ a2.isDigit = true := by
  unfold isMigrationFilename at h
  rw [Bool.and_eq_true] at h
  obtain ⟨-, h2⟩ := h
  rcases hfd : f.data with - | ⟨a0, - | ⟨a1, - | ⟨a2, - | ⟨a3, r⟩⟩⟩⟩ <;>
      rw [hfd] at h2
  · simp at h2
  · simp at h2
  · simp at h2
  · simp at h2
  · simp only [Bool.and_eq_true, decide_eq_true_eq] at h2
    obtain ⟨⟨⟨hd0, hd1⟩, hd2⟩, hu⟩ := h2
    subst hu
    exact ⟨a0, a1, a2, r, rfl, hd0, hd1, hd2⟩


/-- Descending lexicographic order on migration filenames implies descending
order of their three-digit numeric prefixes. -/
theorem num3_le_of_ge {f g : String}
    (hf : isMigrationFilename f = true) (hg : isMigrationFilename g = true)
    (h : GeStr f g) : num3 g.data ≤ num3 f.data := by
  obtain ⟨a0, a1, a2, r, hfd, ha0, ha1, ha2⟩ := mig_shape hf
  obtain ⟨b0, b1, b2, s, hgd, hb0, hb1, hb2⟩ := mig_shape hg
  unfold GeStr at h
  rw [hfd, hgd] at h ⊢
  obtain ⟨ha0l, ha0r⟩ := digit_toNat_bounds ha0
  obtain ⟨ha1l, ha1r⟩ := digit_toNat_bounds ha1
  obtain ⟨ha2l, ha2r⟩ := digit_toNat_bounds ha2
  obtain ⟨hb0l, hb0r⟩ := digit_toNat_bounds hb0
  obtain ⟨hb1l, hb1r⟩ := digit_toNat_bounds hb1
  obtain ⟨hb2l, hb2r⟩ := digit_toNat_bounds hb2
  simp only [num3]
  simp only [lexLt] at h
  by_cases h00 : a0 < b0
  · rw [if_pos h00] at h
    exact Bool.noConfusion h
  · rw [if_neg h00] at h
    by_cases h01 : b0 < a0
    · have := char_lt_toNat h01
      omega
    · have hEq0 : a0 = b0 := le_antisymm (not_lt.mp h01) (not_lt.mp h00)
      subst hEq0
      rw [if_neg h01] at h
      by_cases h10 : a1 < b1
      · rw [if_pos h10] at h
        exact Bool.noConfusion h
      · rw [if_neg h10] at h
        by_cases h11 : b1 < a1
        · have := char_lt_toNat h11
          omega
        · have hEq1 : a1 = b1 := le_antisymm (not_lt.mp h11) (not_lt.mp h10)
          subst hEq1
          rw [if_neg h11] at h
          by_cases h20 : a2 < b2
          · rw [if_pos h20] at h
            exact Bool.noConfusion h
          · by_cases h21 : b2 < a2
            · have := char_lt_toNat h21
              omega
            · have hEq2 : a2 = b2 := le_antisymm (not_lt.mp h21) (not_lt.mp h20)
              subst hEq2
              omega

/-! ## Claim C4 — structure and order of the aggregate rollback script -/

/-- **C4.** For any directory listing, the aggregate `rollback_all.sql` written
by the bundler is a `BEGIN;`/`COMMIT;` transactional envelope containing
exactly one inclusion directive per migration file (the processed files are a
permutation of the listing's migration files), and the directives appear in
descending order of the three-digit `number` prefix. -/
theorem C4_rollback_all_envelope (listing : List String) :
    rollback_all_content (rollback_processing_order listing) =
      "-- Complete rollback of all migrations\n-- Run this to completely remove the schema\n\nBEGIN;\n\n".data ++
      ((rollback_processing_order listing).map
        (fun f => "\\i ".data ++ f.data ++ "\n".data)).flatten ++
      "\nCOMMIT;\n".data ∧
    (rollback_processing_order listing).Perm
      (listing.filter isMigrationFilename) ∧
    (rollback_processing_order listing).Pairwise
      (fun a b => num3 b.data ≤ num3 a.data) := by
  refine ⟨rfl, sortDesc_perm _, ?_⟩
  have hp := sortDesc_pairwise (listing.filter isMigrationFilename)
  have hmem : ∀ x, x ∈ rollback_processing_order listing →
      isMigrationFilename x = true := by
    intro x hx
    have hx2 := (sortDesc_perm (listing.filter isMigrationFilename)).mem_iff.mp hx
    exact List.of_mem_filter hx2
  refine List.Pairwise.imp_of_mem ?_ hp
  intro a b ha hb hab
  exact num3_le_of_ge (hmem a ha) (hmem b hb) hab

/-! ## Claim C6 — ascending generation order, descending rollback order -/

theorem isMigrationFilename_shape {f : String} {c0 c1 c2 : Char} {r : List Char}
    (hd : f.data = c0 :: c1 :: c2 :: '_' :: r)
    (h0 : c0.isDigit = true) (h1 : c1.isDigit = true) (h2 : c2.isDigit = true)
    (hs : ".sql".data <:+ f.data) :
    isMigrationFilename f = true := by
  unfold isMigrationFilename
  rw [Bool.and_eq_true]
  constructor
  · rw [List.isSuffixOf_iff_suffix]
    exact hs
  · rw [hd]
    simp [h0, h1, h2]

theorem sql_suffix_migFilename (m : Migration) : ".sql".data <:+ (migFilename m).data := by
  unfold migFilename
  rw [String.data_append]
  exact List.suffix_append _ _

/-- **C6.** Given catalog definitions numbered `001`, `002`, `003` (in catalog
order), the generation loop emits their files in that ascending order, and the
rollback bundler processes the corresponding migration files in descending
order `003`, `002`, `001`. -/
theorem C6_iteration_orders (d1 d2 d3 : Migration)
    (h1 : d1.number = "001") (h2 : d2.number = "002") (h3 : d3.number = "003") :
    migrations_emit_order [d1, d2, d3] =
      [migFilename d1, migFilename d2, migFilename d3] ∧
    rollback_processing_order
        [migFilename d1, migFilename d2, migFilename d3] =
      [migFilename d3, migFilename d2, migFilename d1] := by
  have e1 : (migFilename d1).data =
      '0' :: '0' :: '1' :: '_' :: (d1.name ++ ".sql").data := by
    unfold migFilename
    rw [h1, String.append_assoc]
    rfl
  have e2 : (migFilename d2).data =
      '0' :: '0' :: '2' :: '_' :: (d2.name ++ ".sql").data := by
    unfold migFilename
    rw [h2, String.append_assoc]
    rfl
  have e3 : (migFilename d3).data =
      '0' :: '0' :: '3' :: '_' :: (d3.name ++ ".sql").data := by
    unfold migFilename
    rw [h3, String.append_assoc]
    rfl
  have hm1 : isMigrationFilename (migFilename d1) = true :=
    isMigrationFilename_shape e1 (by decide) (by decide) (by decide)
      (sql_suffix_migFilename d1)
  have hm2 : isMigrationFilename (migFilename d2) = true :=
    isMigrationFilename_shape e2 (by decide) (by decide) (by decide)
      (sql_suffix_migFilename d2)
  have hm3 : isMigrationFilename (migFilename d3) = true :=
    isMigrationFilename_shape e3 (by decide) (by decide) (by decide)
      (sql_suffix_migFilename d3)
  have l12 : lexLt (migFilename d1).data (migFilename d2).data = true := by
    rw [e1, e2]
    simp +decide [lexLt]
  have l13 : lexLt (migFilename d1).data (migFilename d3).data = true := by
    rw [e1, e3]
    simp +decide [lexLt]
  have l23 : lexLt (migFilename d2).data (migFilename d3).data = true := by
    rw [e2, e3]
    simp +decide [lexLt]
  constructor
  · rfl
  · unfold rollback_processing_order
    rw [List.filter_cons_of_pos hm1, List.filter_cons_of_pos hm2,
        List.filter_cons_of_pos hm3, List.filter_nil]
    have s2 : insertDesc (migFilename d2) [migFilename d3] =
        [migFilename d3, migFilename d2] := by
      unfold insertDesc
      rw [if_pos l23]
      rfl
    have s1 : insertDesc (migFilename d1) [migFilename d3, migFilename d2] =
        [migFilename d3, migFilename d2, migFilename d1] := by
      unfold insertDesc
      rw [if_pos l13]
      unfold insertDesc
      rw [if_pos l12]
      rfl
    show insertDesc (migFilename d1)
        (insertDesc (migFilename d2) (insertDesc (migFilename d3) [])) = _
    rw [show insertDesc (migFilename d3) [] = [migFilename d3] from rfl, s2, s1]

/-- Witness for C6 at three concrete catalog definitions. -/
theorem C6_witness :
    ((⟨"001", "a", "extension", []⟩ : Migration).number = "001" ∧
     (⟨"002", "b", "table", []⟩ : Migration).number = "002" ∧
     (⟨"003", "c", "table", []⟩ : Migration).number = "003") ∧
    (migrations_emit_order
        [⟨"001", "a", "extension", []⟩, ⟨"002", "b", "table", []⟩,
         ⟨"003", "c", "table", []⟩] =
      [migFilename ⟨"001", "a", "extension", []⟩,
       migFilename ⟨"002", "b", "table", []⟩,
       migFilename ⟨"003", "c", "table", []⟩] ∧
     rollback_processing_order
        [migFilename ⟨"001", "a", "extension", []⟩,
         migFilename ⟨"002", "b", "table", []⟩,
         migFilename ⟨"003", "c", "table", []⟩] =
      [migFilename ⟨"003", "c", "table", []⟩,
       migFilename ⟨"002", "b", "table", []⟩,
       migFilename ⟨"001", "a", "extension", []⟩]) :=
  ⟨⟨rfl, rfl, rfl⟩,
   C6_iteration_orders ⟨"001", "a", "extension", []⟩ ⟨"002", "b", "table", []⟩
     ⟨"003", "c", "table", []⟩ rfl rfl rfl⟩

/-! ## Claim C1 — round trip through render, extract and rollback -/

/-- The position matcher used by the `dropTarget` observer: the token after
`IF EXISTS ` (a quoted extension name or an unquoted word).  This is a
formalization helper used to state what the "target name" of a DROP statement
is; it is not part of the source. -/
def dtMatchAt (s : List Char) : Option (List Char) :=
  (stripHead "IF EXISTS ".data s).bind fun r =>
    match stripHead "\"".data r with
    | some r2 => some (r2.takeWhile extClassChar)
    | none => some (r.takeWhile isWordChar)

/-- Target name of a DROP statement (observer, see `dtMatchAt`). -/
def dropTarget (rb : List Char) : Option (List Char) := searchAux dtMatchAt rb

theorem dtMatchAt_none {s : List Char} (h : ¬ "IF EXISTS ".data <+: s) :
    dtMatchAt s = none := by
  unfold dtMatchAt
  rw [stripHead_eq_none h]
  rfl

theorem isEmpty_false_of_ne {x : List Char} (hne : x ≠ []) :
    x.isEmpty = false := by
  rw [Bool.eq_false_iff]
  intro hc
  exact hne (List.isEmpty_iff.mp hc)

/-- Word-group success of `litWordMatchAt` right after its literal. -/
theorem litWordMatchAt_at {lit x : List Char} {c : Char} {r : List Char}
    (hx : x.all isWordChar = true) (hne : x ≠ []) (hc : isWordChar c = false) :
    litWordMatchAt lit (lit ++ (x ++ c :: r)) = some x := by
  unfold litWordMatchAt
  rw [stripHead_append]
  simp only [Option.bind_eq_bind, Option.some_bind, takeWhile_all_append hx hc,
    isEmpty_false_of_ne hne, Bool.false_eq_true, if_false]

/-- The `FailsOn` fact for a matcher that needs its literal, over a rendered
piece region. -/
theorem failsOn_of_pieces {α : Type} {lit ys : List Char} {ps : List Piece}
    {m : List Char → Option α}
    (hm : ∀ s, ¬ lit <+: s → m s = none) (h : piecesOK lit ys ps) :
    FailsOn m (renderPieces ps) ys :=
  FailsOn_of_NPO hm (NPO_pieces h)

/-- Extraction on a rendered extension template. -/
theorem extract_extension_rendered (D DT E : List Char)
    (hD : containsL "CREATE EXTENSION".data D = false)
    (hDT : containsL "CREATE EXTENSION".data DT = false)
    (hE : E.all extClassChar = true) (hEne : E ≠ []) :
    extract_object_info
      ("-- ".data ++ D ++ "\n-- ".data ++ DT ++
       "\nCREATE EXTENSION IF NOT EXISTS \"".data ++ E ++ "\";".data) =
      ⟨"EXTENSION", E, none⟩ := by
  have hS : "-- ".data ++ D ++ "\n-- ".data ++ DT ++
      "\nCREATE EXTENSION IF NOT EXISTS \"".data ++ E ++ "\";".data =
      renderPieces [.glue "-- ".data, .field D, .glue "\n-- ".data, .field DT,
        .glue "\n".data] ++
      ("CREATE EXTENSION IF NOT EXISTS ".data ++ ('"' :: (E ++ "\";".data))) := by
    rw [show ("\nCREATE EXTENSION IF NOT EXISTS \"".data : List Char) =
        "\n".data ++ ("CREATE EXTENSION IF NOT EXISTS ".data ++ "\"".data)
        from rfl]
    simp [renderPieces, List.append_assoc]
  have hpok : piecesOK "CREATE EXTENSION IF NOT EXISTS ".data
      ("CREATE EXTENSION IF NOT EXISTS ".data ++ ('"' :: (E ++ "\";".data)))
      [.glue "-- ".data, .field D, .glue "\n-- ".data, .field DT,
       .glue "\n".data] := by
    exact ⟨by decide, containsL_mono (by decide) hD, by decide, by decide,
      containsL_mono (by decide) hDT, by decide, by decide, trivial⟩
  have hmatch : extMatchAt ("CREATE EXTENSION IF NOT EXISTS ".data ++
      ('"' :: (E ++ "\";".data))) = some E := by
    unfold extMatchAt
    rw [stripHead_append]
    have ht : (E ++ "\";".data).takeWhile extClassChar = E := by
      rw [show ("\";".data : List Char) = '"' :: ";".data from rfl]
      exact takeWhile_all_append hE (by decide)
    simp only [Option.bind_eq_bind, Option.some_bind, ht,
      isEmpty_false_of_ne hEne, Bool.false_eq_true, if_false]
  have hguard : containsL "CREATE EXTENSION".data
      ("-- ".data ++ D ++ "\n-- ".data ++ DT ++
       "\nCREATE EXTENSION IF NOT EXISTS \"".data ++ E ++ "\";".data) = true := by
    apply containsL_of_mid
    refine ⟨"-- ".data ++ D ++ "\n-- ".data ++ DT ++ "\n".data,
            " IF NOT EXISTS \"".data ++ E ++ "\";".data, ?_⟩
    rw [show ("\nCREATE EXTENSION IF NOT EXISTS \"".data : List Char) =
        "\n".data ++ ("CREATE EXTENSION".data ++ " IF NOT EXISTS \"".data)
        from rfl]
    simp [List.append_assoc]
  have hsearch : searchAux extMatchAt
      ("-- ".data ++ D ++ "\n-- ".data ++ DT ++
       "\nCREATE EXTENSION IF NOT EXISTS \"".data ++ E ++ "\";".data) =
      some E := by
    rw [hS]
    exact searchAux_split
      (failsOn_of_pieces (fun s h => extMatchAt_none h) hpok) hmatch
  have htryE : tryExtension
      ("-- ".data ++ D ++ "\n-- ".data ++ DT ++
       "\nCREATE EXTENSION IF NOT EXISTS \"".data ++ E ++ "\";".data) =
      some ⟨"EXTENSION", E, none⟩ := by
    unfold tryExtension
    rw [if_pos hguard, hsearch]
    rfl
  unfold extract_object_info
  rw [htryE]

/-- A branch whose guard is false returns `none`. -/
theorem tryExtension_none_of {sql : List Char}
    (h : containsL "CREATE EXTENSION".data sql = false) :
    tryExtension sql = none := by
  unfold tryExtension
  rw [if_neg (by simp [h])]

theorem tryTable_none_of {sql : List Char}
    (h : containsL "CREATE TABLE".data sql = false) :
    tryTable sql = none := by
  unfold tryTable
  rw [if_neg (by simp [h])]

theorem tryIndex_none_of {sql : List Char}
    (h : containsL "CREATE INDEX".data sql = false) :
    tryIndex sql = none := by
  unfold tryIndex
  rw [if_neg (by simp [h])]

theorem tryFunction_none_of {sql : List Char}
    (h1 : containsL "CREATE OR REPLACE FUNCTION".data sql = false)
    (h2 : containsL "CREATE FUNCTION".data sql = false) :
    tryFunction sql = none := by
  unfold tryFunction
  rw [if_neg (by simp [h1, h2])]

/-- Extraction on a rendered table template. -/
theorem extract_table_rendered (D T COLS CM : List Char)
    (hDce : containsL "CREATE EXTENSION".data D = false)
    (hDct : containsL "CREATE TABLE".data D = false)
    (hT : T.all isWordChar = true) (hTne : T ≠ [])
    (hCOLS : containsL "CREATE EXTENSION".data COLS = false)
    (hCM : containsL "CREATE EXTENSION".data CM = false) :
    extract_object_info
      ("-- ".data ++ D ++ "\nCREATE TABLE IF NOT EXISTS ".data ++ T ++
       " (\n".data ++ COLS ++
       "\n);\n\n-- Add table comment\nCOMMENT ON TABLE ".data ++ T ++
       " IS '".data ++ CM ++ "';".data) =
      ⟨"TABLE", T, none⟩ := by
  have hSfull : "-- ".data ++ D ++ "\nCREATE TABLE IF NOT EXISTS ".data ++ T ++
      " (\n".data ++ COLS ++
      "\n);\n\n-- Add table comment\nCOMMENT ON TABLE ".data ++ T ++
      " IS '".data ++ CM ++ "';".data =
      renderPieces [.glue "-- ".data, .field D,
        .glue "\nCREATE TABLE IF NOT EXISTS ".data, .field T,
        .glue " (\n".data, .field COLS,
        .glue "\n);\n\n-- Add table comment\nCOMMENT ON TABLE ".data, .field T,
        .glue " IS '".data, .field CM, .glue "';".data] := by
    simp [renderPieces, List.append_assoc]
  have hspace : (' ' : Char) ∈ "CREATE EXTENSION".data := by decide
  have hCE : containsL "CREATE EXTENSION".data
      ("-- ".data ++ D ++ "\nCREATE TABLE IF NOT EXISTS ".data ++ T ++
       " (\n".data ++ COLS ++
       "\n);\n\n-- Add table comment\nCOMMENT ON TABLE ".data ++ T ++
       " IS '".data ++ CM ++ "';".data) = false := by
    rw [hSfull]
    refine containsL_eq_false (by decide) (NPO_pieces ?_)
    exact ⟨by decide, not_infix_of_containsL_false hDce, by decide, by decide,
      not_infix_word hspace (by decide) hT, by decide, by decide,
      not_infix_of_containsL_false hCOLS, by decide, by decide,
      not_infix_word hspace (by decide) hT, by decide, by decide,
      not_infix_of_containsL_false hCM, by decide, by decide, trivial⟩
  have hS1 : "-- ".data ++ D ++ "\nCREATE TABLE IF NOT EXISTS ".data ++ T ++
      " (\n".data ++ COLS ++
      "\n);\n\n-- Add table comment\nCOMMENT ON TABLE ".data ++ T ++
      " IS '".data ++ CM ++ "';".data =
      renderPieces [.glue "-- ".data, .field D, .glue "\n".data] ++
      ("CREATE TABLE IF NOT EXISTS ".data ++
       (T ++ ' ' :: ("(\n".data ++ COLS ++
        "\n);\n\n-- Add table comment\nCOMMENT ON TABLE ".data ++ T ++
        " IS '".data ++ CM ++ "';".data))) := by
    rw [show ("\nCREATE TABLE IF NOT EXISTS ".data : List Char) =
        "\n".data ++ "CREATE TABLE IF NOT EXISTS ".data from rfl,
       show (" (\n".data : List Char) = ' ' :: "(\n".data from rfl]
    simp [renderPieces, List.append_assoc]
  have hpok : piecesOK "CREATE TABLE IF NOT EXISTS ".data
      ("CREATE TABLE IF NOT EXISTS ".data ++
       (T ++ ' ' :: ("(\n".data ++ COLS ++
        "\n);\n\n-- Add table comment\nCOMMENT ON TABLE ".data ++ T ++
        " IS '".data ++ CM ++ "';".data)))
      [.glue "-- ".data, .field D, .glue "\n".data] :=
    ⟨by decide, containsL_mono (by decide) hDct, by decide, by decide, trivial⟩
  have hmatch := @litWordMatchAt_at "CREATE TABLE IF NOT EXISTS ".data T ' '
    ("(\n".data ++ COLS ++
      "\n);\n\n-- Add table comment\nCOMMENT ON TABLE ".data ++ T ++
      " IS '".data ++ CM ++ "';".data) hT hTne (by decide)
  have hsearch : searchAux (litWordMatchAt "CREATE TABLE IF NOT EXISTS ".data)
      ("-- ".data ++ D ++ "\nCREATE TABLE IF NOT EXISTS ".data ++ T ++
       " (\n".data ++ COLS ++
       "\n);\n\n-- Add table comment\nCOMMENT ON TABLE ".data ++ T ++
       " IS '".data ++ CM ++ "';".data) = some T := by
    rw [hS1]
    exact searchAux_split
      (failsOn_of_pieces (fun s h => litWordMatchAt_none h) hpok) hmatch
  have hguard : containsL "CREATE TABLE".data
      ("-- ".data ++ D ++ "\nCREATE TABLE IF NOT EXISTS ".data ++ T ++
       " (\n".data ++ COLS ++
       "\n);\n\n-- Add table comment\nCOMMENT ON TABLE ".data ++ T ++
       " IS '".data ++ CM ++ "';".data) = true := by
    apply containsL_of_mid
    refine ⟨"-- ".data ++ D ++ "\n".data,
      " IF NOT EXISTS ".data ++ T ++ " (\n".data ++ COLS ++
      "\n);\n\n-- Add table comment\nCOMMENT ON TABLE ".data ++ T ++
      " IS '".data ++ CM ++ "';".data, ?_⟩
    rw [show ("\nCREATE TABLE IF NOT EXISTS ".data : List Char) =
        "\n".data ++ ("CREATE TABLE".data ++ " IF NOT EXISTS ".data) from rfl]
    simp [List.append_assoc]
  have htryT : tryTable
      ("-- ".data ++ D ++ "\nCREATE TABLE IF NOT EXISTS ".data ++ T ++
       " (\n".data ++ COLS ++
       "\n);\n\n-- Add table comment\nCOMMENT ON TABLE ".data ++ T ++
       " IS '".data ++ CM ++ "';".data) = some ⟨"TABLE", T, none⟩ := by
    unfold tryTable
    rw [if_pos hguard, hsearch]
    rfl
  unfold extract_object_info
  rw [tryExtension_none_of hCE, htryT]

/-- Extraction on a rendered index template (`TI` is the concatenation of the
table name and the index definition that follow `ON`). -/
theorem extract_index_rendered (D I TI : List Char)
    (hDce : containsL "CREATE EXTENSION".data D = false)
    (hDct : containsL "CREATE TABLE".data D = false)
    (hDci : containsL "CREATE INDEX".data D = false)
    (hI : I.all isWordChar = true) (hIne : I ≠ [])
    (hTIce : containsL "CREATE EXTENSION".data TI = false)
    (hTIct : containsL "CREATE TABLE".data TI = false) :
    extract_object_info
      ("-- ".data ++ D ++ "\nCREATE INDEX IF NOT EXISTS ".data ++ I ++
       " ON ".data ++ TI ++ ";".data) =
      ⟨"INDEX", I, none⟩ := by
  have hspace : (' ' : Char) ∈ "CREATE EXTENSION".data := by decide
  have hspace2 : (' ' : Char) ∈ "CREATE TABLE".data := by decide
  have hSfull : "-- ".data ++ D ++ "\nCREATE INDEX IF NOT EXISTS ".data ++ I ++
      " ON ".data ++ TI ++ ";".data =
      renderPieces [.glue "-- ".data, .field D,
        .glue "\nCREATE INDEX IF NOT EXISTS ".data, .field I,
        .glue " ON ".data, .field TI, .glue ";".data] := by
    simp [renderPieces, List.append_assoc]
  have hCE : containsL "CREATE EXTENSION".data
      ("-- ".data ++ D ++ "\nCREATE INDEX IF NOT EXISTS ".data ++ I ++
       " ON ".data ++ TI ++ ";".data) = false := by
    rw [hSfull]
    refine containsL_eq_false (by decide) (NPO_pieces ?_)
    exact ⟨by decide, not_infix_of_containsL_false hDce, by decide, by decide,
      not_infix_word hspace (by decide) hI, by decide, by decide,
      not_infix_of_containsL_false hTIce, by decide, by decide, trivial⟩
  have hCT : containsL "CREATE TABLE".data
      ("-- ".data ++ D ++ "\nCREATE INDEX IF NOT EXISTS ".data ++ I ++
       " ON ".data ++ TI ++ ";".data) = false := by
    rw [hSfull]
    refine containsL_eq_false (by decide) (NPO_pieces ?_)
    exact ⟨by decide, not_infix_of_containsL_false hDct, by decide, by decide,
      not_infix_word hspace2 (by decide) hI, by decide, by decide,
      not_infix_of_containsL_false hTIct, by decide, by decide, trivial⟩
  have hS1 : "-- ".data ++ D ++ "\nCREATE INDEX IF NOT EXISTS ".data ++ I ++
      " ON ".data ++ TI ++ ";".data =
      renderPieces [.glue "-- ".data, .field D, .glue "\n".data] ++
      ("CREATE INDEX IF NOT EXISTS ".data ++
       (I ++ ' ' :: ("ON ".data ++ TI ++ ";".data))) := by
    rw [show ("\nCREATE INDEX IF NOT EXISTS ".data : List Char) =
        "\n".data ++ "CREATE INDEX IF NOT EXISTS ".data from rfl,
       show (" ON ".data : List Char) = ' ' :: "ON ".data from rfl]
    simp [renderPieces, List.append_assoc]
  have hpok : piecesOK "CREATE INDEX IF NOT EXISTS ".data
      ("CREATE INDEX IF NOT EXISTS ".data ++
       (I ++ ' ' :: ("ON ".data ++ TI ++ ";".data)))
      [.glue "-- ".data, .field D, .glue "\n".data] :=
    ⟨by decide, containsL_mono (by decide) hDci, by decide, by decide, trivial⟩
  have hmatch := @litWordMatchAt_at "CREATE INDEX IF NOT EXISTS ".data I ' '
    ("ON ".data ++ TI ++ ";".data) hI hIne (by decide)
  have hsearch : searchAux (litWordMatchAt "CREATE INDEX IF NOT EXISTS ".data)
      ("-- ".data ++ D ++ "\nCREATE INDEX IF NOT EXISTS ".data ++ I ++
       " ON ".data ++ TI ++ ";".data) = some I := by
    rw [hS1]
    exact searchAux_split
      (failsOn_of_pieces (fun s h => litWordMatchAt_none h) hpok) hmatch
  have hguard : containsL "CREATE INDEX".data
      ("-- ".data ++ D ++ "\nCREATE INDEX IF NOT EXISTS ".data ++ I ++
       " ON ".data ++ TI ++ ";".data) = true := by
    apply containsL_of_mid
    refine ⟨"-- ".data ++ D ++ "\n".data,
      " IF NOT EXISTS ".data ++ I ++ " ON ".data ++ TI ++ ";".data, ?_⟩
    rw [show ("\nCREATE INDEX IF NOT EXISTS ".data : List Char) =
        "\n".data ++ ("CREATE INDEX".data ++ " IF NOT EXISTS ".data) from rfl]
    simp [List.append_assoc]
  have htryI : tryIndex
      ("-- ".data ++ D ++ "\nCREATE INDEX IF NOT EXISTS ".data ++ I ++
       " ON ".data ++ TI ++ ";".data) = some ⟨"INDEX", I, none⟩ := by
    unfold tryIndex
    rw [if_pos hguard, hsearch]
    rfl
  unfold extract_object_info
  rw [tryExtension_none_of hCE, tryTable_none_of hCT, htryI]

/-- Extraction on a rendered function template. -/
theorem extract_function_rendered (D F B : List Char)
    (hD : containsL "CREATE ".data D = false)
    (hF : F.all isWordChar = true) (hFne : F ≠ [])
    (hBce : containsL "CREATE EXTENSION".data B = false)
    (hBct : containsL "CREATE TABLE".data B = false)
    (hBci : containsL "CREATE INDEX".data B = false) :
    extract_object_info
      ("-- ".data ++ D ++ "\nCREATE OR REPLACE FUNCTION ".data ++ F ++
       "\n".data ++ B) =
      ⟨"FUNCTION", F, none⟩ := by
  have hspace : (' ' : Char) ∈ "CREATE EXTENSION".data := by decide
  have hspace2 : (' ' : Char) ∈ "CREATE TABLE".data := by decide
  have hspace3 : (' ' : Char) ∈ "CREATE INDEX".data := by decide
  have hSfull : "-- ".data ++ D ++ "\nCREATE OR REPLACE FUNCTION ".data ++ F ++
      "\n".data ++ B =
      renderPieces [.glue "-- ".data, .field D,
        .glue "\nCREATE OR REPLACE FUNCTION ".data, .field F,
        .glue "\n".data, .field B] := by
    simp [renderPieces, List.append_assoc]
  have hCE : containsL "CREATE EXTENSION".data
      ("-- ".data ++ D ++ "\nCREATE OR REPLACE FUNCTION ".data ++ F ++
       "\n".data ++ B) = false := by
    rw [hSfull]
    refine containsL_eq_false (by decide) (NPO_pieces ?_)
    exact ⟨by decide, containsL_mono (by decide) hD, by decide, by decide,
      not_infix_word hspace (by decide) hF, by decide, by decide,
      not_infix_of_containsL_false hBce, Or.inl rfl⟩
  have hCT : containsL "CREATE TABLE".data
      ("-- ".data ++ D ++ "\nCREATE OR REPLACE FUNCTION ".data ++ F ++
       "\n".data ++ B) = false := by
    rw [hSfull]
    refine containsL_eq_false (by decide) (NPO_pieces ?_)
    exact ⟨by decide, containsL_mono (by decide) hD, by decide, by decide,
      not_infix_word hspace2 (by decide) hF, by decide, by decide,
      not_infix_of_containsL_false hBct, Or.inl rfl⟩
  have hCI : containsL "CREATE INDEX".data
      ("-- ".data ++ D ++ "\nCREATE OR REPLACE FUNCTION ".data ++ F ++
       "\n".data ++ B) = false := by
    rw [hSfull]
    refine containsL_eq_false (by decide) (NPO_pieces ?_)
    exact ⟨by decide, containsL_mono (by decide) hD, by decide, by decide,
      not_infix_word hspace3 (by decide) hF, by decide, by decide,
      not_infix_of_containsL_false hBci, Or.inl rfl⟩
  have hS1 : "-- ".data ++ D ++ "\nCREATE OR REPLACE FUNCTION ".data ++ F ++
      "\n".data ++ B =
      renderPieces [.glue "-- ".data, .field D, .glue "\n".data] ++
      ("CREATE ".data ++ ("OR REPLACE ".data ++ ("FUNCTION ".data ++
       (F ++ '\n' :: B)))) := by
    rw [show ("\nCREATE OR REPLACE FUNCTION ".data : List Char) =
        "\n".data ++ ("CREATE ".data ++ ("OR REPLACE ".data ++
        "FUNCTION ".data)) from rfl]
    simp [renderPieces, List.append_assoc]
  have hpok : piecesOK "CREATE ".data
      ("CREATE ".data ++ ("OR REPLACE ".data ++ ("FUNCTION ".data ++
       (F ++ '\n' :: B))))
      [.glue "-- ".data, .field D, .glue "\n".data] :=
    ⟨by decide, not_infix_of_containsL_false hD, by decide, by decide, trivial⟩
  have hmatch : funcMatchAt ("CREATE ".data ++ ("OR REPLACE ".data ++
      ("FUNCTION ".data ++ (F ++ '\n' :: B)))) = some F := by
    have h1 : stripHead "OR REPLACE ".data ("OR REPLACE ".data ++
        ("FUNCTION ".data ++ (F ++ '\n' :: B))) =
        some ("FUNCTION ".data ++ (F ++ '\n' :: B)) := stripHead_append _ _
    have h2 : stripHead "FUNCTION ".data ("FUNCTION ".data ++
        (F ++ '\n' :: B)) = some (F ++ '\n' :: B) := stripHead_append _ _
    unfold funcMatchAt
    rw [stripHead_append]
    simp only [Option.bind_eq_bind, Option.some_bind, h1, h2,
      takeWhile_all_append hF (by decide : isWordChar '\n' = false),
      isEmpty_false_of_ne hFne, Bool.false_eq_true, if_false]
  have hsearch : searchAux funcMatchAt
      ("-- ".data ++ D ++ "\nCREATE OR REPLACE FUNCTION ".data ++ F ++
       "\n".data ++ B) = some F := by
    rw [hS1]
    exact searchAux_split
      (failsOn_of_pieces (fun s h => funcMatchAt_none h) hpok) hmatch
  have hguard : containsL "CREATE OR REPLACE FUNCTION".data
      ("-- ".data ++ D ++ "\nCREATE OR REPLACE FUNCTION ".data ++ F ++
       "\n".data ++ B) = true := by
    apply containsL_of_mid
    refine ⟨"-- ".data ++ D ++ "\n".data,
      " ".data ++ F ++ "\n".data ++ B, ?_⟩
    rw [show ("\nCREATE OR REPLACE FUNCTION ".data : List Char) =
        "\n".data ++ ("CREATE OR REPLACE FUNCTION".data ++ " ".data) from rfl]
    simp [List.append_assoc]
  have hcond : (containsL "CREATE OR REPLACE FUNCTION".data
      ("-- ".data ++ D ++ "\nCREATE OR REPLACE FUNCTION ".data ++ F ++
       "\n".data ++ B) ||
      containsL "CREATE FUNCTION".data
      ("-- ".data ++ D ++ "\nCREATE OR REPLACE FUNCTION ".data ++ F ++
       "\n".data ++ B)) = true := by
    rw [hguard]
    rfl
  have htryF : tryFunction
      ("-- ".data ++ D ++ "\nCREATE OR REPLACE FUNCTION ".data ++ F ++
       "\n".data ++ B) = some ⟨"FUNCTION", F, none⟩ := by
    unfold tryFunction
    rw [if_pos hcond, hsearch]
    rfl
  unfold extract_object_info
  rw [tryExtension_none_of hCE, tryTable_none_of hCT, tryIndex_none_of hCI,
     htryF]

theorem onMatchAt_cons_none {c : Char} {y : List Char} (hc : c ≠ 'O') :
    onMatchAt (c :: y) = none := by
  apply onMatchAt_none
  rintro ⟨r, hr⟩
  injection hr with hh _
  exact hc hh.symm

theorem FailsOn_single {α : Type} {m : List Char → Option α} {c : Char}
    {y : List Char} (h : m (c :: y) = none) : FailsOn m [c] y := by
  intro t ht hsuf
  rcases List.suffix_cons_iff.mp hsuf with rfl | h2
  · exact h
  · rw [List.suffix_nil.mp h2] at ht
    exact absurd rfl ht

/-- The rightmost `ON (\w+)` match in `ON <word>();` is the word: the last
`ON ` of a rendered trigger template is the tail of `FUNCTION`, so the
captured dependent is the trigger function's name. -/
theorem onRightmost_funcall {fn : List Char} (hw : fn.all isWordChar = true)
    (hne : fn ≠ []) :
    onRightmost ("ON ".data ++ (fn ++ "();".data)) = some fn := by
  have hcan : ("ON ".data ++ (fn ++ "();".data)) =
      'O' :: 'N' :: ' ' :: (fn ++ ['(', ')', ';']) := rfl
  rw [hcan]
  have hnpo : NPO "ON ".data fn ['(', ')', ';'] := by
    have h0 := @NPO_part "ON ".data fn ['(', ')', ';'] []
      (not_infix_word (by decide : (' ' : Char) ∈ "ON ".data) (by decide) hw)
      (by decide)
    rw [List.append_nil] at h0
    exact h0
  have h1 : onRightmost (fn ++ ['(', ')', ';']) = none := by
    apply onRightmost_append_none
    · decide
    · exact FailsOn_of_NPO (fun s h => onMatchAt_none h) hnpo
  have h2 : onRightmost (' ' :: (fn ++ ['(', ')', ';'])) = none :=
    onRightmost_append_none (x := [' ']) h1
      (FailsOn_single (onMatchAt_cons_none (by decide)))
  have h3 : onRightmost ('N' :: ' ' :: (fn ++ ['(', ')', ';'])) = none :=
    onRightmost_append_none (x := ['N']) h2
      (FailsOn_single (onMatchAt_cons_none (by decide)))
  show (match onRightmost ('N' :: ' ' :: (fn ++ ['(', ')', ';'])) with
        | some g => some g
        | none => onMatchAt ('O' :: 'N' :: ' ' :: (fn ++ ['(', ')', ';']))) =
      some fn
  rw [h3]
  show onMatchAt ('O' :: 'N' :: ' ' :: (fn ++ ['(', ')', ';'])) = some fn
  unfold onMatchAt
  rw [show stripHead "ON ".data ('O' :: 'N' :: ' ' :: (fn ++ ['(', ')', ';'])) =
      some (fn ++ ['(', ')', ';']) from rfl]
  simp only [Option.bind_eq_bind, Option.some_bind,
    takeWhile_all_append hw (by decide : isWordChar '(' = false),
    isEmpty_false_of_ne hne, Bool.false_eq_true, if_false]

/-- Extraction on a rendered trigger template: the name group is the trigger
name, and the dependent group is the function name, captured by the greedy
`.*ON (\w+)` from the tail of the word `FUNCTION`. -/
theorem extract_trigger_rendered (D TN TT TE TB FN : List Char)
    (hD : containsL "CREATE ".data D = false)
    (hTN : TN.all isWordChar = true) (hTNne : TN ≠ [])
    (hM : containsL "CREATE ".data (TT ++ " ".data ++ TE) = false)
    (hTB : TB.all isWordChar = true)
    (hFN : FN.all isWordChar = true) (hFNne : FN ≠ []) :
    extract_object_info
      ("-- ".data ++ D ++ "\nCREATE TRIGGER ".data ++ TN ++ "\n    ".data ++
       TT ++ " ".data ++ TE ++ " ON ".data ++ TB ++
       "\n    FOR EACH ROW EXECUTE FUNCTION ".data ++ FN ++ "();".data) =
      ⟨"TRIGGER", TN, some FN⟩ := by
  have hSfull : "-- ".data ++ D ++ "\nCREATE TRIGGER ".data ++ TN ++
      "\n    ".data ++ TT ++ " ".data ++ TE ++ " ON ".data ++ TB ++
      "\n    FOR EACH ROW EXECUTE FUNCTION ".data ++ FN ++ "();".data =
      renderPieces [.glue "-- ".data, .field D, .glue "\nCREATE TRIGGER ".data,
        .field TN, .glue "\n    ".data, .field (TT ++ " ".data ++ TE),
        .glue " ON ".data, .field TB,
        .glue "\n    FOR EACH ROW EXECUTE FUNCTION ".data, .field FN,
        .glue "();".data] := by
    simp [renderPieces, List.append_assoc]
  have hCE : containsL "CREATE EXTENSION".data
      ("-- ".data ++ D ++ "\nCREATE TRIGGER ".data ++ TN ++ "\n    ".data ++
       TT ++ " ".data ++ TE ++ " ON ".data ++ TB ++
       "\n    FOR EACH ROW EXECUTE FUNCTION ".data ++ FN ++ "();".data) =
      false := by
    rw [hSfull]
    refine containsL_eq_false (by decide) (NPO_pieces ?_)
    exact ⟨by decide, containsL_mono (by decide) hD, by decide, by decide,
      not_infix_word (by decide : (' ' : Char) ∈ "CREATE EXTENSION".data)
        (by decide) hTN, by decide, by decide,
      containsL_mono (by decide) hM, by decide, by decide,
      not_infix_word (by decide : (' ' : Char) ∈ "CREATE EXTENSION".data)
        (by decide) hTB, by decide, by decide,
      not_infix_word (by decide : (' ' : Char) ∈ "CREATE EXTENSION".data)
        (by decide) hFN, by decide, by decide, trivial⟩
  have hCT : containsL "CREATE TABLE".data
      ("-- ".data ++ D ++ "\nCREATE TRIGGER ".data ++ TN ++ "\n    ".data ++
       TT ++ " ".data ++ TE ++ " ON ".data ++ TB ++
       "\n    FOR EACH ROW EXECUTE FUNCTION ".data ++ FN ++ "();".data) =
      false := by
    rw [hSfull]
    refine containsL_eq_false (by decide) (NPO_pieces ?_)
    exact ⟨by decide, containsL_mono (by decide) hD, by decide, by decide,
      not_infix_word (by decide : (' ' : Char) ∈ "CREATE TABLE".data)
        (by decide) hTN, by decide, by decide,
      containsL_mono (by decide) hM, by decide, by decide,
      not_infix_word (by decide : (' ' : Char) ∈ "CREATE TABLE".data)
        (by decide) hTB, by decide, by decide,
      not_infix_word (by decide : (' ' : Char) ∈ "CREATE TABLE".data)
        (by decide) hFN, by decide, by decide, trivial⟩
  have hCI : containsL "CREATE INDEX".data
      ("-- ".data ++ D ++ "\nCREATE TRIGGER ".data ++ TN ++ "\n    ".data ++
       TT ++ " ".data ++ TE ++ " ON ".data ++ TB ++
       "\n    FOR EACH ROW EXECUTE FUNCTION ".data ++ FN ++ "();".data) =
      false := by
    rw [hSfull]
    refine containsL_eq_false (by decide) (NPO_pieces ?_)
    exact ⟨by decide, containsL_mono (by decide) hD, by decide, by decide,
      not_infix_word (by decide : (' ' : Char) ∈ "CREATE INDEX".data)
        (by decide) hTN, by decide, by decide,
      containsL_mono (by decide) hM, by decide, by decide,
      not_infix_word (by decide : (' ' : Char) ∈ "CREATE INDEX".data)
        (by decide) hTB, by decide, by decide,
      not_infix_word (by decide : (' ' : Char) ∈ "CREATE INDEX".data)
        (by decide) hFN, by decide, by decide, trivial⟩
  have hCORF : containsL "CREATE OR REPLACE FUNCTION".data
      ("-- ".data ++ D ++ "\nCREATE TRIGGER ".data ++ TN ++ "\n    ".data ++
       TT ++ " ".data ++ TE ++ " ON ".data ++ TB ++
       "\n    FOR EACH ROW EXECUTE FUNCTION ".data ++ FN ++ "();".data) =
      false := by
    rw [hSfull]
    refine containsL_eq_false (by decide) (NPO_pieces ?_)
    exact ⟨by decide, containsL_mono (by decide) hD, by decide, by decide,
      not_infix_word
        (by decide : (' ' : Char) ∈ "CREATE OR REPLACE FUNCTION".data)
        (by decide) hTN, by decide, by decide,
      containsL_mono (by decide) hM, by decide, by decide,
      not_infix_word
        (by decide : (' ' : Char) ∈ "CREATE OR REPLACE FUNCTION".data)
        (by decide) hTB, by decide, by decide,
      not_infix_word
        (by decide : (' ' : Char) ∈ "CREATE OR REPLACE FUNCTION".data)
        (by decide) hFN, by decide, by decide, trivial⟩
  have hCF : containsL "CREATE FUNCTION".data
      ("-- ".data ++ D ++ "\nCREATE TRIGGER ".data ++ TN ++ "\n    ".data ++
       TT ++ " ".data ++ TE ++ " ON ".data ++ TB ++
       "\n    FOR EACH ROW EXECUTE FUNCTION ".data ++ FN ++ "();".data) =
      false := by
    rw [hSfull]
    refine containsL_eq_false (by decide) (NPO_pieces ?_)
    exact ⟨by decide, containsL_mono (by decide) hD, by decide, by decide,
      not_infix_word (by decide : (' ' : Char) ∈ "CREATE FUNCTION".data)
        (by decide) hTN, by decide, by decide,
      containsL_mono (by decide) hM, by decide, by decide,
      not_infix_word (by decide : (' ' : Char) ∈ "CREATE FUNCTION".data)
        (by decide) hTB, by decide, by decide,
      not_infix_word (by decide : (' ' : Char) ∈ "CREATE FUNCTION".data)
        (by decide) hFN, by decide, by decide, trivial⟩
  have hS1 : "-- ".data ++ D ++ "\nCREATE TRIGGER ".data ++ TN ++
      "\n    ".data ++ TT ++ " ".data ++ TE ++ " ON ".data ++ TB ++
      "\n    FOR EACH ROW EXECUTE FUNCTION ".data ++ FN ++ "();".data =
      renderPieces [.glue "-- ".data, .field D, .glue "\n".data] ++
      ("CREATE TRIGGER ".data ++
       (TN ++ '\n' :: ("    ".data ++ (TT ++ " ".data ++ TE) ++ " ON ".data ++
        TB ++ "\n    FOR EACH ROW EXECUTE FUNCTION ".data ++ FN ++
        "();".data))) := by
    rw [show ("\nCREATE TRIGGER ".data : List Char) =
        "\n".data ++ "CREATE TRIGGER ".data from rfl,
       show ("\n    ".data : List Char) = '\n' :: "    ".data from rfl]
    simp [renderPieces, List.append_assoc]
  have hpok : piecesOK "CREATE TRIGGER ".data
      ("CREATE TRIGGER ".data ++
       (TN ++ '\n' :: ("    ".data ++ (TT ++ " ".data ++ TE) ++ " ON ".data ++
        TB ++ "\n    FOR EACH ROW EXECUTE FUNCTION ".data ++ FN ++
        "();".data)))
      [.glue "-- ".data, .field D, .glue "\n".data] :=
    ⟨by decide, containsL_mono (by decide) hD, by decide, by decide, trivial⟩
  have honr : onRightmost ('\n' :: ("    ".data ++ (TT ++ " ".data ++ TE) ++
      " ON ".data ++ TB ++ "\n    FOR EACH ROW EXECUTE FUNCTION ".data ++
      FN ++ "();".data)) = some FN := by
    have hregroup : '\n' :: ("    ".data ++ (TT ++ " ".data ++ TE) ++
        " ON ".data ++ TB ++ "\n    FOR EACH ROW EXECUTE FUNCTION ".data ++
        FN ++ "();".data) =
        ('\n' :: ("    ".data ++ (TT ++ " ".data ++ TE) ++ " ON ".data ++
         TB ++ "\n    FOR EACH ROW EXECUTE FUNCTI".data)) ++
        ("ON ".data ++ (FN ++ "();".data)) := by
      rw [show ("\n    FOR EACH ROW EXECUTE FUNCTION ".data : List Char) =
          "\n    FOR EACH ROW EXECUTE FUNCTI".data ++ "ON ".data from rfl]
      simp [List.append_assoc]
    rw [hregroup]
    exact onRightmost_right_some (onRightmost_funcall hFN hFNne) _
  have hmatch : trigMatchAt ("CREATE TRIGGER ".data ++
      (TN ++ '\n' :: ("    ".data ++ (TT ++ " ".data ++ TE) ++ " ON ".data ++
       TB ++ "\n    FOR EACH ROW EXECUTE FUNCTION ".data ++ FN ++
       "();".data))) = some (TN, FN) := by
    unfold trigMatchAt
    rw [stripHead_append]
    simp only [Option.bind_eq_bind, Option.some_bind,
      takeWhile_all_append hTN (by decide : isWordChar '\n' = false)]
    obtain ⟨c, TN', rfl⟩ := List.exists_cons_of_ne_nil hTNne
    show trigBacktrack (c :: TN') _ ((c :: TN').length) = some (c :: TN', FN)
    rw [show ((c :: TN').length) = TN'.length + 1 from rfl]
    unfold trigBacktrack
    rw [show TN'.length + 1 = (c :: TN').length from rfl, List.drop_left, honr,
       List.take_length]
  have hguard : containsL "CREATE TRIGGER".data
      ("-- ".data ++ D ++ "\nCREATE TRIGGER ".data ++ TN ++ "\n    ".data ++
       TT ++ " ".data ++ TE ++ " ON ".data ++ TB ++
       "\n    FOR EACH ROW EXECUTE FUNCTION ".data ++ FN ++ "();".data) =
      true := by
    apply containsL_of_mid
    refine ⟨"-- ".data ++ D ++ "\n".data,
      " ".data ++ TN ++ "\n    ".data ++ TT ++ " ".data ++ TE ++
      " ON ".data ++ TB ++ "\n    FOR EACH ROW EXECUTE FUNCTION ".data ++
      FN ++ "();".data, ?_⟩
    rw [show ("\nCREATE TRIGGER ".data : List Char) =
        "\n".data ++ ("CREATE TRIGGER".data ++ " ".data) from rfl]
    simp [List.append_assoc]
  have hsearch : searchAux trigMatchAt
      ("-- ".data ++ D ++ "\nCREATE TRIGGER ".data ++ TN ++ "\n    ".data ++
       TT ++ " ".data ++ TE ++ " ON ".data ++ TB ++
       "\n    FOR EACH ROW EXECUTE FUNCTION ".data ++ FN ++ "();".data) =
      some (TN, FN) := by
    rw [hS1]
    exact searchAux_split
      (failsOn_of_pieces (fun s h => trigMatchAt_none h) hpok) hmatch
  have htryG : tryTrigger
      ("-- ".data ++ D ++ "\nCREATE TRIGGER ".data ++ TN ++ "\n    ".data ++
       TT ++ " ".data ++ TE ++ " ON ".data ++ TB ++
       "\n    FOR EACH ROW EXECUTE FUNCTION ".data ++ FN ++ "();".data) =
      some ⟨"TRIGGER", TN, some FN⟩ := by
    unfold tryTrigger
    rw [if_pos hguard, hsearch]
    rfl
  unfold extract_object_info
  rw [tryExtension_none_of hCE, tryTable_none_of hCT, tryIndex_none_of hCI,
     tryFunction_none_of hCORF hCF, htryG]

/-- A nonempty word token never starts with a quote. -/
theorem stripHead_quote_none {x rest : List Char}
    (hx : x.all isWordChar = true) (hne : x ≠ []) :
    stripHead "\"".data (x ++ rest) = none := by
  apply stripHead_eq_none
  rintro ⟨r, hr⟩
  obtain ⟨c, x', rfl⟩ := List.exists_cons_of_ne_nil hne
  injection hr with h1 _
  rw [List.all_cons, Bool.and_eq_true] at hx
  rw [← h1] at hx
  exact absurd hx.1 (by decide)

/-- `dropTarget` on a DROP statement whose target is an unquoted word. -/
theorem dropTarget_word {pre x : List Char} {c : Char} {r : List Char}
    (hg : glueClear "IF EXISTS ".data pre = true)
    (hx : x.all isWordChar = true) (hne : x ≠ []) (hc : isWordChar c = false) :
    dropTarget (pre ++ ("IF EXISTS ".data ++ (x ++ c :: r))) = some x := by
  unfold dropTarget
  apply searchAux_split
  · exact FailsOn_of_NPO (fun s h => dtMatchAt_none h) (NPO_glue hg _)
  · unfold dtMatchAt
    rw [stripHead_append]
    simp only [Option.bind_eq_bind, Option.some_bind,
      stripHead_quote_none hx hne, takeWhile_all_append hx hc]

/-- `dropTarget` on a DROP statement whose target is a quoted extension name. -/
theorem dropTarget_quoted {pre E r : List Char}
    (hg : glueClear "IF EXISTS ".data pre = true)
    (hE : E.all extClassChar = true) :
    dropTarget (pre ++ ("IF EXISTS ".data ++ ('"' :: (E ++ '"' :: r)))) =
      some E := by
  unfold dropTarget
  apply searchAux_split
  · exact FailsOn_of_NPO (fun s h => dtMatchAt_none h) (NPO_glue hg _)
  · unfold dtMatchAt
    rw [stripHead_append]
    simp only [Option.bind_eq_bind, Option.some_bind]
    rw [show stripHead "\"".data ('"' :: (E ++ '"' :: r)) =
        some (E ++ '"' :: r) from rfl]
    show some (List.takeWhile extClassChar (E ++ '"' :: r)) = some E
    rw [takeWhile_all_append hE (by decide : extClassChar '"' = false)]

/-- Declared object name of a catalog definition, per kind (the content key
whose value names the created object). -/
def declaredName (m : Migration) : Option String :=
  if m.type = "extension" then getKey m.content "extension"
  else if m.type = "table" then getKey m.content "table_name"
  else if m.type = "index" then getKey m.content "index_name"
  else if m.type = "function" then getKey m.content "function_name"
  else if m.type = "trigger" then getKey m.content "trigger_name"
  else none

/-- A nonempty string of word characters (`\w`). -/
def wordStr (s : String) : Bool := !s.data.isEmpty && s.data.all isWordChar

/-- A nonempty string of `[^";\s]` characters. -/
def extStr (s : String) : Bool := !s.data.isEmpty && s.data.all extClassChar

/-- Well-formedness of a definition of one of the five templated kinds: the
required content keys are present, object names are word identifiers (the
extension name draws from its own character class), and free-text fields do
not contain the uppercase `CREATE`-pattern fragments that the extractor's
guards and regexes react to. -/
def wellFormedTemplated (m : Migration) : Bool :=
  if m.type = "extension" then
    match getKey m.content "description", getKey m.content "details",
          getKey m.content "extension" with
    | some d, some dt, some e =>
      !containsL "CREATE EXTENSION".data d.data &&
      !containsL "CREATE EXTENSION".data dt.data && extStr e
    | _, _, _ => false
  else if m.type = "table" then
    match getKey m.content "description", getKey m.content "table_name",
          getKey m.content "columns", getKey m.content "comment" with
    | some d, some t, some cols, some cm =>
      !containsL "CREATE EXTENSION".data d.data &&
      !containsL "CREATE TABLE".data d.data && wordStr t &&
      !containsL "CREATE EXTENSION".data cols.data &&
      !containsL "CREATE EXTENSION".data cm.data
    | _, _, _, _ => false
  else if m.type = "index" then
    match getKey m.content "description", getKey m.content "index_name",
          getKey m.content "table_name", getKey m.content "index_def" with
    | some d, some i, some t, some idef =>
      !containsL "CREATE EXTENSION".data d.data &&
      !containsL "CREATE TABLE".data d.data &&
      !containsL "CREATE INDEX".data d.data && wordStr i &&
      !containsL "CREATE EXTENSION".data (t.data ++ idef.data) &&
      !containsL "CREATE TABLE".data (t.data ++ idef.data)
    | _, _, _, _ => false
  else if m.type = "function" then
    match getKey m.content "description", getKey m.content "function_name",
          getKey m.content "function_body" with
    | some d, some f, some b =>
      !containsL "CREATE ".data d.data && wordStr f &&
      !containsL "CREATE EXTENSION".data b.data &&
      !containsL "CREATE TABLE".data b.data &&
      !containsL "CREATE INDEX".data b.data
    | _, _, _ => false
  else if m.type = "trigger" then
    match getKey m.content "description", getKey m.content "trigger_name",
          getKey m.content "trigger_timing", getKey m.content "trigger_event",
          getKey m.content "table_name", getKey m.content "function_name" with
    | some d, some tn, some tt, some te, some tb, some fn =>
      !containsL "CREATE ".data d.data && wordStr tn &&
      !containsL "CREATE ".data (tt.data ++ " ".data ++ te.data) &&
      wordStr tb && wordStr fn
    | _, _, _, _, _, _ => false
  else false

theorem wordStr_spec {s : String} (h : wordStr s = true) :
    s.data.all isWordChar = true ∧ s.data ≠ [] := by
  unfold wordStr at h
  rw [Bool.and_eq_true] at h
  refine ⟨h.2, ?_⟩
  intro hc
  rw [hc] at h
  exact absurd h.1 (by decide)

theorem extStr_spec {s : String} (h : extStr s = true) :
    s.data.all extClassChar = true ∧ s.data ≠ [] := by
  unfold extStr at h
  rw [Bool.and_eq_true] at h
  refine ⟨h.2, ?_⟩
  intro hc
  rw [hc] at h
  exact absurd h.1 (by decide)

theorem drop_prefix_of {lit rest : List Char}
    (h : ("DROP ".data : List Char) <+: lit) :
    ("DROP ".data : List Char) <+: lit ++ rest :=
  h.trans (List.prefix_append _ _)

/-- **C1 (amended).** For every definition of one of the five templated kinds
(extension, table, index, function, trigger) whose content is well-formed in
the sense of `wellFormedTemplated`, composing `generate_migration`,
`extract_object_info` and `generate_rollback` yields a DROP statement whose
target name equals the definition's declared object name. -/
theorem C1_amended_roundtrip (m : Migration)
    (h : wellFormedTemplated m = true) :
    ∃ sql rb nm,
      generate_migration m = .ok sql ∧
      generate_rollback (extract_object_info sql).kind
        (extract_object_info sql).name (extract_object_info sql).dependent =
        .ok rb ∧
      declaredName m = some nm ∧
      ("DROP ".data : List Char) <+: rb ∧
      dropTarget rb = some nm.data := by
  unfold wellFormedTemplated at h
  by_cases hty1 : m.type = "extension"
  · rw [if_pos hty1] at h
    cases hgd : getKey m.content "description" with
    | none => rw [hgd] at h; simp at h
    | some d =>
    cases hgt : getKey m.content "details" with
    | none => rw [hgd, hgt] at h; simp at h
    | some dt =>
    cases hge : getKey m.content "extension" with
    | none => rw [hgd, hgt, hge] at h; simp at h
    | some e =>
    rw [hgd, hgt, hge] at h
    simp only [Bool.and_eq_true, Bool.not_eq_true'] at h
    obtain ⟨⟨hd1, hd2⟩, he⟩ := h
    obtain ⟨heall, hene⟩ := extStr_spec he
    have hsql : generate_migration m = .ok
        ("-- ".data ++ d.data ++ "\n-- ".data ++ dt.data ++
         "\nCREATE EXTENSION IF NOT EXISTS \"".data ++ e.data ++
         "\";".data) := by
      unfold generate_migration
      rw [hty1]
      simp only [reduceIte]
      unfold renderExtension reqKey
      rw [hgd, hgt, hge]
      rfl
    have hext := extract_extension_rendered d.data dt.data e.data hd1 hd2
      heall hene
    have hregroup : "DROP EXTENSION IF EXISTS \"".data ++ e.data ++
        "\" CASCADE;".data =
        "DROP EXTENSION ".data ++ ("IF EXISTS ".data ++
         ('"' :: (e.data ++ '"' :: " CASCADE;".data))) := by
      rw [show ("DROP EXTENSION IF EXISTS \"".data : List Char) =
          "DROP EXTENSION ".data ++ ("IF EXISTS ".data ++ "\"".data) from rfl,
         show ("\" CASCADE;".data : List Char) = '"' :: " CASCADE;".data
          from rfl]
      simp [List.append_assoc]
    refine ⟨_, "DROP EXTENSION IF EXISTS \"".data ++ e.data ++
      "\" CASCADE;".data, e, hsql, ?_, ?_, ?_, ?_⟩
    · rw [hext]
      rfl
    · unfold declaredName
      rw [hty1]
      simp only [reduceIte]
      exact hge
    · rw [hregroup]
      exact drop_prefix_of (by decide)
    · rw [hregroup]
      exact dropTarget_quoted (by decide) heall
  · rw [if_neg hty1] at h
    by_cases hty2 : m.type = "table"
    · rw [if_pos hty2] at h
      cases hgd : getKey m.content "description" with
      | none => rw [hgd] at h; simp at h
      | some d =>
      cases hgt : getKey m.content "table_name" with
      | none => rw [hgd, hgt] at h; simp at h
      | some t =>
      cases hgc : getKey m.content "columns" with
      | none => rw [hgd, hgt, hgc] at h; simp at h
      | some cols =>
      cases hgm : getKey m.content "comment" with
      | none => rw [hgd, hgt, hgc, hgm] at h; simp at h
      | some cm =>
      rw [hgd, hgt, hgc, hgm] at h
      simp only [Bool.and_eq_true, Bool.not_eq_true'] at h
      obtain ⟨⟨⟨⟨hd1, hd2⟩, ht⟩, hc1⟩, hm1⟩ := h
      obtain ⟨htall, htne⟩ := wordStr_spec ht
      have hsql : generate_migration m = .ok
          ("-- ".data ++ d.data ++ "\nCREATE TABLE IF NOT EXISTS ".data ++
           t.data ++ " (\n".data ++ cols.data ++
           "\n);\n\n-- Add table comment\nCOMMENT ON TABLE ".data ++ t.data ++
           " IS '".data ++ cm.data ++ "';".data) := by
        unfold generate_migration
        rw [hty2]
        simp only [reduceIte]
        unfold renderTable reqKey
        rw [hgd, hgt, hgc, hgm]
        rfl
      have hext := extract_table_rendered d.data t.data cols.data cm.data
        hd1 hd2 htall htne hc1 hm1
      have hregroup : "DROP TABLE IF EXISTS ".data ++ t.data ++
          " CASCADE;".data =
          "DROP TABLE ".data ++ ("IF EXISTS ".data ++
           (t.data ++ ' ' :: "CASCADE;".data)) := by
        rw [show ("DROP TABLE IF EXISTS ".data : List Char) =
            "DROP TABLE ".data ++ "IF EXISTS ".data from rfl,
           show (" CASCADE;".data : List Char) = ' ' :: "CASCADE;".data
            from rfl]
        simp [List.append_assoc]
      refine ⟨_, "DROP TABLE IF EXISTS ".data ++ t.data ++ " CASCADE;".data,
        t, hsql, ?_, ?_, ?_, ?_⟩
      · rw [hext]
        rfl
      · unfold declaredName
        rw [hty2]
        simp only [reduceIte]
        exact hgt
      · rw [hregroup]
        exact drop_prefix_of (by decide)
      · rw [hregroup]
        exact dropTarget_word (by decide) htall htne (by decide)
    · rw [if_neg hty2] at h
      by_cases hty3 : m.type = "index"
      · rw [if_pos hty3] at h
        cases hgd : getKey m.content "description" with
        | none => rw [hgd] at h; simp at h
        | some d =>
        cases hgi : getKey m.content "index_name" with
        | none => rw [hgd, hgi] at h; simp at h
        | some i =>
        cases hgt : getKey m.content "table_name" with
        | none => rw [hgd, hgi, hgt] at h; simp at h
        | some t =>
        cases hgf : getKey m.content "index_def" with
        | none => rw [hgd, hgi, hgt, hgf] at h; simp at h
        | some idef =>
        rw [hgd, hgi, hgt, hgf] at h
        simp only [Bool.and_eq_true, Bool.not_eq_true'] at h
        obtain ⟨⟨⟨⟨⟨hd1, hd2⟩, hd3⟩, hi⟩, hti1⟩, hti2⟩ := h
        obtain ⟨hiall, hine⟩ := wordStr_spec hi
        have hsql0 : generate_migration m = .ok
            ("-- ".data ++ d.data ++ "\nCREATE INDEX IF NOT EXISTS ".data ++
             i.data ++ " ON ".data ++ t.data ++ idef.data ++ ";".data) := by
          unfold generate_migration
          rw [hty3]
          simp only [reduceIte]
          unfold renderIndex reqKey
          rw [hgd, hgi, hgt, hgf]
          rfl
        have hsql : generate_migration m = .ok
            ("-- ".data ++ d.data ++ "\nCREATE INDEX IF NOT EXISTS ".data ++
             i.data ++ " ON ".data ++ (t.data ++ idef.data) ++ ";".data) := by
          rw [hsql0]
          simp [List.append_assoc]
        have hext := extract_index_rendered d.data i.data
          (t.data ++ idef.data) hd1 hd2 hd3 hiall hine hti1 hti2
        have hregroup : "DROP INDEX IF EXISTS ".data ++ i.data ++ ";".data =
            "DROP INDEX ".data ++ ("IF EXISTS ".data ++
             (i.data ++ ';' :: [])) := by
          rw [show ("DROP INDEX IF EXISTS ".data : List Char) =
              "DROP INDEX ".data ++ "IF EXISTS ".data from rfl,
             show (";".data : List Char) = ';' :: [] from rfl]
          simp [List.append_assoc]
        refine ⟨_, "DROP INDEX IF EXISTS ".data ++ i.data ++ ";".data,
          i, hsql, ?_, ?_, ?_, ?_⟩
        · rw [hext]
          rfl
        · unfold declaredName
          rw [hty3]
          simp only [reduceIte]
          exact hgi
        · rw [hregroup]
          exact drop_prefix_of (by decide)
        · rw [hregroup]
          exact dropTarget_word (by decide) hiall hine (by decide)
      · rw [if_neg hty3] at h
        by_cases hty4 : m.type = "function"
        · rw [if_pos hty4] at h
          cases hgd : getKey m.content "description" with
          | none => rw [hgd] at h; simp at h
          | some d =>
          cases hgf : getKey m.content "function_name" with
          | none => rw [hgd, hgf] at h; simp at h
          | some f =>
          cases hgb : getKey m.content "function_body" with
          | none => rw [hgd, hgf, hgb] at h; simp at h
          | some b =>
          rw [hgd, hgf, hgb] at h
          simp only [Bool.and_eq_true, Bool.not_eq_true'] at h
          obtain ⟨⟨⟨⟨hd1, hf⟩, hb1⟩, hb2⟩, hb3⟩ := h
          obtain ⟨hfall, hfne⟩ := wordStr_spec hf
          have hsql : generate_migration m = .ok
              ("-- ".data ++ d.data ++
               "\nCREATE OR REPLACE FUNCTION ".data ++ f.data ++
               "\n".data ++ b.data) := by
            unfold generate_migration
            rw [hty4]
            simp only [reduceIte]
            unfold renderFunction reqKey
            rw [hgd, hgf, hgb]
            rfl
          have hext := extract_function_rendered d.data f.data b.data
            hd1 hfall hfne hb1 hb2 hb3
          have hregroup : "DROP FUNCTION IF EXISTS ".data ++ f.data ++
              " CASCADE;".data =
              "DROP FUNCTION ".data ++ ("IF EXISTS ".data ++
               (f.data ++ ' ' :: "CASCADE;".data)) := by
            rw [show ("DROP FUNCTION IF EXISTS ".data : List Char) =
                "DROP FUNCTION ".data ++ "IF EXISTS ".data from rfl,
               show (" CASCADE;".data : List Char) = ' ' :: "CASCADE;".data
                from rfl]
            simp [List.append_assoc]
          refine ⟨_, "DROP FUNCTION IF EXISTS ".data ++ f.data ++
            " CASCADE;".data, f, hsql, ?_, ?_, ?_, ?_⟩
          · rw [hext]
            rfl
          · unfold declaredName
            rw [hty4]
            simp only [reduceIte]
            exact hgf
          · rw [hregroup]
            exact drop_prefix_of (by decide)
          · rw [hregroup]
            exact dropTarget_word (by decide) hfall hfne (by decide)
        · rw [if_neg hty4] at h
          by_cases hty5 : m.type = "trigger"
          · rw [if_pos hty5] at h
            cases hgd : getKey m.content "description" with
            | none => rw [hgd] at h; simp at h
            | some d =>
            cases hgn : getKey m.content "trigger_name" with
            | none => rw [hgd, hgn] at h; simp at h
            | some tn =>
            cases hgtt : getKey m.content "trigger_timing" with
            | none => rw [hgd, hgn, hgtt] at h; simp at h
            | some tt =>
            cases hgte : getKey m.content "trigger_event" with
            | none => rw [hgd, hgn, hgtt, hgte] at h; simp at h
            | some te =>
            cases hgtb : getKey m.content "table_name" with
            | none => rw [hgd, hgn, hgtt, hgte, hgtb] at h; simp at h
            | some tb =>
            cases hgfn : getKey m.content "function_name" with
            | none => rw [hgd, hgn, hgtt, hgte, hgtb, hgfn] at h; simp at h
            | some fn =>
            rw [hgd, hgn, hgtt, hgte, hgtb, hgfn] at h
            simp only [Bool.and_eq_true, Bool.not_eq_true'] at h
            obtain ⟨⟨⟨⟨hd1, hn⟩, hm2⟩, htb⟩, hfn1⟩ := h
            obtain ⟨hnall, hnne⟩ := wordStr_spec hn
            obtain ⟨htball, -⟩ := wordStr_spec htb
            obtain ⟨hfnall, hfnne⟩ := wordStr_spec hfn1
            have hsql : generate_migration m = .ok
                ("-- ".data ++ d.data ++ "\nCREATE TRIGGER ".data ++
                 tn.data ++ "\n    ".data ++ tt.data ++ " ".data ++
                 te.data ++ " ON ".data ++ tb.data ++
                 "\n    FOR EACH ROW EXECUTE FUNCTION ".data ++ fn.data ++
                 "();".data) := by
              unfold generate_migration
              rw [hty5]
              simp only [reduceIte]
              unfold renderTrigger reqKey
              rw [hgd, hgn, hgtt, hgte, hgtb, hgfn]
              rfl
            have hext := extract_trigger_rendered d.data tn.data tt.data
              te.data tb.data fn.data hd1 hnall hnne hm2 htball hfnall hfnne
            have hdt : depTruthy (some fn.data) = true := by
              show (!fn.data.isEmpty) = true
              rw [isEmpty_false_of_ne hfnne]
              rfl
            have hcond : (("TRIGGER" : String) = "TRIGGER" &&
                depTruthy (some fn.data)) = true := by
              rw [hdt]
              rfl
            have hrb : generate_rollback "TRIGGER" tn.data (some fn.data) =
                .ok ("DROP TRIGGER IF EXISTS ".data ++ tn.data ++
                     " ON ".data ++ fn.data ++ ";".data) := by
              unfold generate_rollback
              rw [if_pos hcond]
              simp [List.append_assoc]
            have hregroup : "DROP TRIGGER IF EXISTS ".data ++ tn.data ++
                " ON ".data ++ fn.data ++ ";".data =
                "DROP TRIGGER ".data ++ ("IF EXISTS ".data ++
                 (tn.data ++ ' ' :: ("ON ".data ++ fn.data ++ ";".data))) := by
              rw [show ("DROP TRIGGER IF EXISTS ".data : List Char) =
                  "DROP TRIGGER ".data ++ "IF EXISTS ".data from rfl,
                 show (" ON ".data : List Char) = ' ' :: "ON ".data from rfl]
              simp [List.append_assoc]
            refine ⟨_, "DROP TRIGGER IF EXISTS ".data ++ tn.data ++
              " ON ".data ++ fn.data ++ ";".data, tn, hsql, ?_, ?_, ?_, ?_⟩
            · rw [hext]
              exact hrb
            · unfold declaredName
              rw [hty5]
              simp only [reduceIte]
              exact hgn
            · rw [hregroup]
              exact drop_prefix_of (by decide)
            · rw [hregroup]
              exact dropTarget_word (by decide) hnall hnne (by decide)
          · rw [if_neg hty5] at h
            exact absurd h (by simp)

/-- A catalog definition of kind `seed` (a kind of the rollback-template
table). -/
def seedDef : Migration :=
  ⟨"040", "seed_sectors", "seed", [("table_name", "sectors")]⟩

/-- **C1 counterexample.** For the `seed` kind — which the claim includes —
the composition does not produce a DROP statement at all: rendering yields the
`-- TODO` placeholder, extraction returns `UNKNOWN`, and the rollback is a
manual-rollback comment, so its target is not the declared name `sectors`. -/
theorem C1_counterexample :
    generate_migration seedDef = .ok "-- TODO: Implement seed migration".data ∧
    extract_object_info "-- TODO: Implement seed migration".data =
      ⟨"UNKNOWN", "unknown".data, none⟩ ∧
    generate_rollback "UNKNOWN" "unknown".data none =
      .ok "-- TODO: Manual rollback required for UNKNOWN unknown".data ∧
    ¬ (("DROP ".data : List Char) <+:
        "-- TODO: Manual rollback required for UNKNOWN unknown".data) ∧
    dropTarget "-- TODO: Manual rollback required for UNKNOWN unknown".data ≠
      some "sectors".data :=
  ⟨rfl, by decide, rfl, by decide, by decide⟩

/-- A concrete well-formed extension definition (entry 001 of the source
catalog). -/
def wfExtensionDef : Migration :=
  ⟨"001", "enable_uuid_extension", "extension",
   [("extension", "uuid-ossp"),
    ("description", "Enable UUID generation extension"),
    ("details", "Required for primary key generation across all tables")]⟩

/-- Witness for C1's amended claim at the catalog's first extension entry. -/
theorem C1_witness :
    wellFormedTemplated wfExtensionDef = true ∧
    (∃ sql rb nm,
      generate_migration wfExtensionDef = .ok sql ∧
      generate_rollback (extract_object_info sql).kind
        (extract_object_info sql).name (extract_object_info sql).dependent =
        .ok rb ∧
      declaredName wfExtensionDef = some nm ∧
      ("DROP ".data : List Char) <+: rb ∧
      dropTarget rb = some nm.data) :=
  ⟨by decide, C1_amended_roundtrip wfExtensionDef (by decide)⟩

end SFM

